import Mathlib

/-!
# TodoExtensionManager (static/js/todo-extension.js)

A shallow embedding of the "extend due date" modal controller.  The browser
page is a record of the elements the controller looks up; an element that is
absent from the page is `none`, and a property access on it raises a
`TypeError` exactly where the source dereferences without a guard.
-/

namespace TodoExtension

/-! ## Numbers produced by `parseInt` -/

/-- Value of `parseInt(...)`: `NaN`, an integer-valued double (`int n` is the
double equal to `n`; `-0` is `0`) or an infinity (`inf true` is `-Infinity`). -/
inductive JSNum where
  | nan : JSNum
  | int (n : Int) : JSNum
  | inf (negative : Bool) : JSNum
  deriving DecidableEq, Repr

/-- Number of binary digits of `n`, counted with `fuel` halvings at most. -/
def bitLengthAux : Nat → Nat → Nat
  | 0, _ => 0
  | fuel + 1, n => if n = 0 then 0 else bitLengthAux fuel (n / 2) + 1

/-- Number of binary digits of `n`. -/
def bitLength (n : Nat) : Nat :=
  bitLengthAux n n

/-- The IEEE 754 double nearest to the natural number `n` (ties to even), as the
natural number it equals; `none` when that rounding overflows to `Infinity`. -/
def nearestDouble (n : Nat) : Option Nat :=
  let bits := bitLength n
  if bits ≤ 53 then some n
  else
    let unit := 2 ^ (bits - 53)
    let q := n / unit
    let r := n % unit
    let half := unit / 2
    let rounded := if half < r ∨ (r = half ∧ q % 2 = 1) then q + 1 else q
    if 1024 < bitLength (rounded * unit) then none else some (rounded * unit)

/-- One round of `Number::toString`: the `k`-digit decimal `s` nearest to `x`
whose value `s * 10 ^ (digits - k)` rounds to the double `x`, with the decimal
exponent `n` of the specification; `none` when no `k`-digit decimal does. -/
def shortestDigits (x digits k : Nat) : Option (Nat × Nat) :=
  let p := 10 ^ (digits - k)
  let lo := x / p
  let hi := lo + 1
  let okLo := nearestDouble (lo * p) == some x
  let okHi := nearestDouble (hi * p) == some x
  let below := x - lo * p
  let above := hi * p - x
  let pick : Option Nat :=
    if okLo && okHi then
      (if below < above then some lo else if above < below then some hi
       else if lo % 2 = 0 then some lo else some hi)
    else if okLo then some lo
    else if okHi then some hi
    else none
  match pick with
  | none => none
  | some s => if s = 10 ^ k then some (10 ^ (k - 1), digits + 1) else some (s, digits)

/-- Text of the decimal `s * 10 ^ (n - k)` as `Number::toString` writes it:
plain digits up to 21 of them, exponent form beyond. -/
def formatDigits (s n : Nat) : String :=
  let ds := Nat.toDigits 10 s
  if n ≤ 21 then String.mk (ds ++ List.replicate (n - ds.length) '0')
  else
    match ds with
    | [] => ""
    | [d] => String.mk [d] ++ "e+" ++ toString (n - 1)
    | d :: rest => String.mk (d :: '.' :: rest) ++ "e+" ++ toString (n - 1)

/-- ECMAScript `Number::toString` for a non-negative integer-valued double: the
shortest decimal that rounds back to it (below `2 ^ 53` that is the integer
itself). -/
def renderNat (x : Nat) : String :=
  if x < 2 ^ 53 then toString x
  else
    let digits := (Nat.toDigits 10 x).length
    match (List.range digits).findSome? (fun i => shortestDigits x digits (i + 1)) with
    | some (s, n) => formatDigits s n
    | none => toString x

namespace JSNum

/-- JavaScript truthiness of a number: `NaN` and `0` are falsy. -/
def truthy : JSNum → Bool
  | nan => false
  | int n => n != 0
  | inf _ => true

/-- Global `isNaN`. -/
def isNaN : JSNum → Bool
  | nan => true
  | int _ => false
  | inf _ => false

/-- Relational `x <= k`; any comparison with `NaN` is false. -/
def le (x : JSNum) (k : Int) : Bool :=
  match x with
  | nan => false
  | int n => decide (n ≤ k)
  | inf negative => negative

/-- Relational `x > k`; any comparison with `NaN` is false. -/
def gt (x : JSNum) (k : Int) : Bool :=
  match x with
  | nan => false
  | int n => decide (k < n)
  | inf negative => !negative

/-- String form of a number inside a template literal (`Number::toString`). -/
def render : JSNum → String
  | nan => "NaN"
  | int n => if n < 0 then "-" ++ renderNat n.natAbs else renderNat n.natAbs
  | inf negative => if negative then "-Infinity" else "Infinity"

end JSNum

/-- White space skipped by `parseInt` (ECMAScript WhiteSpace and LineTerminator). -/
def isStrWhiteSpace (c : Char) : Bool :=
  let n := c.toNat
  n == 9 || n == 10 || n == 11 || n == 12 || n == 13 || n == 32 || n == 160 ||
  n == 5760 || (8192 ≤ n && n ≤ 8202) || n == 8232 || n == 8233 || n == 8239 ||
  n == 8287 || n == 12288 || n == 65279

/-- Value of a character as a digit (up to base 16). -/
def digitValue (c : Char) : Option Nat :=
  let n := c.toNat
  if 48 ≤ n ∧ n ≤ 57 then some (n - 48)
  else if 97 ≤ n ∧ n ≤ 102 then some (n - 87)
  else if 65 ≤ n ∧ n ≤ 70 then some (n - 55)
  else none

/-- Whether `c` is a digit of the given radix. -/
def isRadixDigit (radix : Nat) (c : Char) : Bool :=
  match digitValue c with
  | some v => decide (v < radix)
  | none => false

/-- Numeric value of a run of digits. -/
def digitsValue (radix : Nat) (cs : List Char) : Nat :=
  cs.foldl (fun acc c => acc * radix + (digitValue c).getD 0) 0

/-- Sign prefix of `parseInt`: returns whether the number is negative and the rest. -/
def stripSign : List Char → Bool × List Char
  | '-' :: rest => (true, rest)
  | '+' :: rest => (false, rest)
  | cs => (false, cs)

/-- Radix prefix of `parseInt` called without a radix: `0x` / `0X` selects base 16. -/
def stripRadixPrefix : List Char → Nat × List Char
  | '0' :: 'x' :: rest => (16, rest)
  | '0' :: 'X' :: rest => (16, rest)
  | cs => (10, cs)

/-- ECMAScript `parseInt(string)` with the radix left out, as every call of the
source does: leading white space, an optional sign, an optional `0x` prefix and
the longest run of digits; `NaN` when that run is empty, otherwise the double
nearest to the value of the run (the exact rounding that the specification
allows and V8 performs, also beyond 20 decimal digits). -/
def parseInt (input : String) : JSNum :=
  let trimmed := input.toList.dropWhile isStrWhiteSpace
  let signed := stripSign trimmed
  let prefixed := stripRadixPrefix signed.2
  let digits := prefixed.2.takeWhile (isRadixDigit prefixed.1)
  if digits.isEmpty then JSNum.nan
  else
    match nearestDouble (digitsValue prefixed.1 digits) with
    | none => JSNum.inf signed.1
    | some magnitude =>
      JSNum.int (if signed.1 then -(magnitude : Int) else (magnitude : Int))

/-- String form of a value that is a string or `null` (string concatenation,
template literals, `parseInt`). -/
def nullableToString : Option String → String
  | some v => v
  | none => "null"

/-- JavaScript truthiness of a string-or-missing value: only a non-empty string is truthy. -/
def truthyString : Option String → Bool
  | some v => v != ""
  | none => false

/-! ## Messages of the source -/

def msgInvalidDays : String := "請輸入有效的延期天數"
def msgMustBePositive : String := "延期天數必須為正數"
def msgExceedsMax : String := "延期天數不能超過365天"
def msgPreviewFailed : String := "預覽失敗，請檢查輸入的天數"
def msgExtendFailed : String := "延期失敗"
def msgExtendFailedRetry : String := "延期失敗，請稍後再試"
def msgExtendSuccess : String := "延期成功！到期日已更新"
def processingLabel : String := "<i class=\"bi bi-hourglass-split me-1\"></i>處理中..."

/-! ## The host: exceptions and the `Date` library -/

/-- An exception value: the engine's error name and its `message` property. -/
structure Thrown where
  name : String
  message : String
  deriving DecidableEq, Repr

/-- The `TypeError` raised when a property of `null` is read or written; `expr`
is the expression that was `null`.  The wording of the message is the
engine's, it is never empty. -/
def nullDeref (expr : String) : Thrown :=
  ⟨"TypeError", "Cannot read properties of null: " ++ expr⟩

/-- The host's `Date` implementation (clock readings are passed separately).
Time values are milliseconds since the epoch; an invalid `Date` is `none`. -/
structure DateHost where
  /-- Time value of `new Date(text)`; `none` is `Invalid Date` (`NaN`). -/
  parse : String → Option Int
  /-- Time value after `setHours(0, 0, 0, 0)`: local midnight of the same day. -/
  startOfDay : Int → Int
  /-- Local calendar day of a time value, as a day number.  `toDateString()`
  prints exactly this day, so two valid dates have equal `toDateString()`
  texts when and only when they have the same `localDay`. -/
  localDay : Int → Int
  /-- Text of `toLocaleDateString('zh-TW', ...)` with a numeric year and
  two-digit month and day, for a valid date. -/
  toLocaleDateString : Int → String

/-- Method `Date.prototype.toLocaleDateString` with the fixed locale and options of
the source: on an invalid date it returns the text `Invalid Date`; it does not
throw for a supported locale tag and well-formed options. -/
def dateToLocaleDateString (host : DateHost) (date : Option Int) : Except Thrown String :=
  match date with
  | none => Except.ok "Invalid Date"
  | some t => Except.ok (host.toLocaleDateString t)

/-- Method `Date.prototype.toDateString`, compared only for equality by the source:
the local calendar day of a valid date, `none` for the text `Invalid Date`. -/
def dateToDateString (host : DateHost) (date : Option Int) : Option Int :=
  date.map host.localDay

/-- Source `formatDate(dateString)`: `try { new Date(dateString + 'T00:00:00')
.toLocaleDateString('zh-TW', ...) } catch (error) { return dateString }`. -/
def formatDate (host : DateHost) (dateString : String) : String :=
  let date := host.parse (dateString ++ "T00:00:00")
  match dateToLocaleDateString host date with
  | Except.ok text => text
  | Except.error _ => dateString

/-! ## Page state -/

/-- The day-count `<input id="extensionDays">`. -/
structure InputEl where
  value : String
  classList : List String
  deriving DecidableEq, Repr

/-- The confirm button `#confirmExtend`. -/
structure ButtonEl where
  disabled : Bool
  innerHTML : String
  deriving DecidableEq, Repr

/-- A `.quick-select` element. -/
structure QuickSelectEl where
  dataDays : Option String
  classList : List String
  deriving DecidableEq, Repr

/-- The modal element `#extendModal`; `shown` is `none` while no Bootstrap
`Modal` instance is registered on it (`bootstrap.Modal.getInstance` gives
`null`) and otherwise tells whether the instance is shown. -/
structure ModalEl where
  shown : Option Bool
  deriving DecidableEq, Repr

/-- JSON body of the extension request: `{ todoId, extensionDays }`. -/
structure SubmitBody where
  todoId : JSNum
  extensionDays : JSNum
  deriving DecidableEq, Repr

/-- A call of `fetch`. -/
structure Request where
  method : String
  url : String
  headers : List (String × String)
  body : Option SubmitBody
  deriving DecidableEq, Repr

/-- The extend control `.extend-btn` of a card. -/
structure ExtendBtnEl where
  dataCurrentDueDate : Option String
  display : String
  deriving DecidableEq, Repr

/-- The parent element of `.badge` elements inside a card, with the
`textContent` of each badge it holds. -/
structure BadgeBlock where
  badges : List String
  deriving DecidableEq, Repr

/-- A `.todo-item` card, reduced to what the controller reads and writes:
`todoId` is the `data-todo-id` found inside the card, each looked-up element is
`none` when `querySelector` finds nothing, `blocks` are the parents of the
card's `.badge` elements and `timeInfoDiv` tells whether the card has a
`.d-flex.flex-wrap.gap-3` element (new badge blocks are appended next to it).
The date display, the extend control, the time-info row and the badge blocks
are taken to be separate elements inside the card, none nested in another. -/
structure Card where
  todoId : String
  dueDateDisplay : Option String
  extendBtn : Option ExtendBtnEl
  timeInfoDiv : Bool
  blocks : List BadgeBlock
  transition : String
  backgroundColor : String
  transform : String
  deriving DecidableEq, Repr

/-- What a pending `setTimeout` callback does. -/
inductive TimerAction where
  | reloadPage
  | removeBanner (message : String)
  | restoreCardColors (todoId : String)
  | clearCardTransition (todoId : String)
  deriving DecidableEq, Repr

/-- The controller's fields and the page it works on.  For an element looked up
by id, `none` means the page has no such element. -/
structure State where
  /-- Field `this.currentTodoId` (`none` is `null`). -/
  currentTodoId : Option String
  /-- Field `this.currentDueDate` (`none` is `null`). -/
  currentDueDate : Option String
  /-- Text of `#todoTitle`. -/
  todoTitle : Option String
  /-- Text of `#currentDueDate`. -/
  currentDueDateSpan : Option String
  extensionDays : Option InputEl
  /-- Text of `#newDueDate`. -/
  newDueDate : Option String
  /-- Style `display` of `#datePreviewHelp`. -/
  datePreviewHelp : Option String
  /-- Style `display` of `#errorMessage`. -/
  errorMessage : Option String
  /-- Text of `#errorText`. -/
  errorText : Option String
  confirmExtend : Option ButtonEl
  extendModal : Option ModalEl
  quickSelect : List QuickSelectEl
  /-- Attribute `content` of `meta[name="_csrf"]`, when there is one. -/
  csrfToken : Option String
  /-- Attribute `content` of `meta[name="_csrf_header"]`, when there is one. -/
  csrfHeader : Option String
  cards : List Card
  /-- Success banners appended to the body. -/
  banners : List String
  /-- Every `fetch` issued so far, oldest first. -/
  requests : List Request
  alerts : List String
  console : List String
  timers : List (Nat × TimerAction)
  deriving DecidableEq, Repr

/-- Outcome of a synchronous call: the state it leaves (also when it throws) and
either its return value or the exception that escaped. -/
structure Run (α : Type) where
  state : State
  result : Except Thrown α

/-- Method `classList.remove(token)`. -/
def classRemove (token : String) (classes : List String) : List String :=
  classes.filter (fun c => c != token)

/-- Method `classList.add(token)`. -/
def classAdd (token : String) (classes : List String) : List String :=
  if token ∈ classes then classes else classes ++ [token]

/-- The state of a freshly constructed controller on a page (constructor body). -/
def construct (page : State) : State :=
  { page with currentTodoId := none, currentDueDate := none }

/-! ## Error display -/

/-- Source `clearError()`. -/
def clearError (s : State) : State :=
  match s.errorMessage with
  | some _ => { s with errorMessage := some "none" }
  | none => s

/-- Source `showError(message)`: the inline error when both error elements
exist, otherwise a console entry and an `alert` (scrolling the error box into
view changes nothing that is modelled). -/
def showError (s : State) (message : String) : State :=
  match s.errorMessage, s.errorText with
  | some _, some _ => { s with errorText := some message, errorMessage := some "block" }
  | _, _ => { s with console := s.console ++ ["Error elements not found:"],
                     alerts := s.alerts ++ [message] }

/-! ## Validation -/

/-- Statement `extensionDaysInput.classList.add('is-invalid')` on the element held by the caller. -/
def markInvalid (s : State) : State :=
  { s with extensionDays :=
      s.extensionDays.map fun (inp : InputEl) => ⟨inp.value, classAdd "is-invalid" inp.classList⟩ }

/-- Source `validateInput(days)`. -/
def validateInput (s : State) (days : JSNum) : Run Bool :=
  match s.extensionDays with
  | none => ⟨s, Except.error (nullDeref "extensionDaysInput")⟩
  | some inp =>
    let cleared : InputEl := { inp with classList := classRemove "is-invalid" inp.classList }
    let s1 := { s with extensionDays := some cleared }
    let s2 := clearError s1
    if !days.truthy || days.isNaN then
      ⟨markInvalid (showError s2 msgInvalidDays), Except.ok false⟩
    else if days.le 0 then
      ⟨markInvalid (showError s2 msgMustBePositive), Except.ok false⟩
    else if days.gt 365 then
      ⟨markInvalid (showError s2 msgExceedsMax), Except.ok false⟩
    else
      ⟨s2, Except.ok true⟩

/-! ## The modal form -/

/-- Source `resetModal()`. -/
def resetModal (s : State) : State :=
  let s1 := { s with extensionDays := s.extensionDays.map fun (inp : InputEl) =>
                ⟨"", classRemove "is-invalid" inp.classList⟩ }
  let s2 := { s1 with newDueDate := s1.newDueDate.map fun _ => "" }
  let s3 := { s2 with datePreviewHelp := s2.datePreviewHelp.map fun _ => "none" }
  let s4 := { s3 with quickSelect := s3.quickSelect.map fun (btn : QuickSelectEl) =>
                ⟨btn.dataDays, classRemove "active" btn.classList⟩ }
  clearError s4

/-- Source `openExtensionModal(todoId, title, currentDueDate)`. -/
def openExtensionModal (host : DateHost) (s : State)
    (todoId title currentDueDate : Option String) : State :=
  let s1 := { s with currentTodoId := todoId, currentDueDate := currentDueDate }
  let s2 := { s1 with todoTitle := s1.todoTitle.map fun _ => title.getD "" }
  let s3 := { s2 with currentDueDateSpan := s2.currentDueDateSpan.map fun _ =>
                formatDate host (nullableToString currentDueDate) }
  let s4 := resetModal s3
  match s4.extendModal with
  | some _ => { s4 with extendModal := some { shown := some true } }
  | none => { s4 with console := s4.console ++ ["Extend modal not found!"] }

/-- The preview request of `updatePreview`. -/
def previewRequest (todoId : Option String) (days : JSNum) : Request :=
  { method := "GET"
    url := "/todos/" ++ nullableToString todoId ++ "/extend/preview?days=" ++ days.render
    headers := [("Content-Type", "application/json"), ("X-Requested-With", "XMLHttpRequest")]
    body := none }

/-- Source `updatePreview()`, up to and including the call of `fetch`. -/
def updatePreview (s : State) : Run Unit :=
  match s.extensionDays with
  | none => ⟨s, Except.error (nullDeref "document.getElementById(extensionDays)")⟩
  | some inp =>
    let days := parseInt inp.value
    if !days.truthy || days.le 0 then
      match s.newDueDate with
      | none => ⟨s, Except.error (nullDeref "document.getElementById(newDueDate)")⟩
      | some _ =>
        let s1 := { s with newDueDate := some "" }
        match s1.datePreviewHelp with
        | none => ⟨s1, Except.error (nullDeref "document.getElementById(datePreviewHelp)")⟩
        | some _ => ⟨{ s1 with datePreviewHelp := some "none" }, Except.ok ()⟩
    else
      ⟨{ s with requests := s.requests ++ [previewRequest s.currentTodoId days] }, Except.ok ()⟩

/-! ## Submitting -/

/-- Assignment `headers[name] = value` on the headers object. -/
def setHeader (headers : List (String × String)) (name value : String) : List (String × String) :=
  if headers.any (fun h => h.1 == name) then
    headers.map fun h => if h.1 == name then (name, value) else h
  else headers ++ [(name, value)]

/-- The extension request of `confirmExtension`: the CSRF pair is attached when
both `content` values are truthy. -/
def submitRequest (s : State) (requestData : SubmitBody) : Request :=
  let headers := [("Content-Type", "application/json"), ("X-Requested-With", "XMLHttpRequest")]
  let headers :=
    if truthyString s.csrfToken && truthyString s.csrfHeader then
      setHeader headers (s.csrfHeader.getD "") (s.csrfToken.getD "")
    else headers
  { method := "POST"
    url := "/todos/" ++ nullableToString s.currentTodoId ++ "/extend"
    headers := headers
    body := some requestData }

/-- What the promise chain of a submit keeps from `confirmExtension`: the
confirm button it holds and the label to restore. -/
structure PendingSubmit where
  originalText : String
  deriving DecidableEq, Repr

/-- Source `confirmExtension()`, up to and including the call of `fetch`; the
value is the pending submit, `none` when validation failed and the function
returned early. -/
def confirmExtension (s : State) : Run (Option PendingSubmit) :=
  match s.extensionDays with
  | none => ⟨s, Except.error (nullDeref "document.getElementById(extensionDays)")⟩
  | some inp =>
    let days := parseInt inp.value
    let checked := validateInput s days
    match checked.result with
    | Except.error e => ⟨checked.state, Except.error e⟩
    | Except.ok false => ⟨checked.state, Except.ok none⟩
    | Except.ok true =>
      let s1 := checked.state
      let requestData : SubmitBody := ⟨parseInt (nullableToString s1.currentTodoId), days⟩
      match s1.confirmExtend with
      | none => ⟨s1, Except.error (nullDeref "confirmBtn")⟩
      | some btn =>
        let originalText := btn.innerHTML
        let s2 := { s1 with confirmExtend := some ⟨true, processingLabel⟩ }
        let s3 := { s2 with requests := s2.requests ++ [submitRequest s2 requestData] }
        ⟨s3, Except.ok (some ⟨originalText⟩)⟩

/-! ## Patching the card -/

/-- Method `String.prototype.includes`, on character lists. -/
def includesChars : List Char → List Char → Bool
  | [], needle => needle.isEmpty
  | c :: rest, needle => needle.isPrefixOf (c :: rest) || includesChars rest needle

/-- Method `text.includes(needle)`. -/
def includes (text needle : String) : Bool :=
  includesChars text.toList needle.toList

def overdueMark : String := "已逾期"
def dueTodayMark : String := "今日到期"

/-- Text of the `.badge` span created for an overdue item (the template literal
of the source, with its line breaks and indentation). -/
def overdueBadgeText : String :=
  "\n                    " ++ overdueMark ++ "\n                "

/-- Text of the `.badge` span created for an item due today. -/
def dueTodayBadgeText : String :=
  "\n                    " ++ dueTodayMark ++ "\n                "

/-- The test of the removal loop: the badge text includes one of the two marks. -/
def isStatusBadge (text : String) : Bool :=
  includes text overdueMark || includes text dueTodayMark

/-- Whether a block holds a badge whose parent the removal loop removes. -/
def BadgeBlock.hasStatusBadge (block : BadgeBlock) : Bool :=
  block.badges.any isStatusBadge

/-- Comparison `a < b` of two dates (through their time values; false when either is invalid). -/
def dateLt (a b : Option Int) : Bool :=
  match a, b with
  | some x, some y => decide (x < y)
  | _, _ => false

/-- Source `updateWarningBadges(todoCard, newDueDate)`; `now` is the reading of
`new Date()`.  The card is returned as the call leaves it, with the exception
that escaped, if any. -/
def updateWarningBadges (host : DateHost) (now : Int) (card : Card) (newDueDate : String) :
    Card × Option Thrown :=
  let card1 := { card with blocks := card.blocks.filter fun b => !b.hasStatusBadge }
  let today : Option Int := some now
  let dueDate := host.parse (newDueDate ++ "T00:00:00")
  let todayStr := dateToDateString host today
  let dueDateStr := dateToDateString host dueDate
  if dateLt dueDate today && todayStr != dueDateStr then
    if card1.timeInfoDiv then
      ({ card1 with blocks := card1.blocks ++ [⟨[overdueBadgeText]⟩] }, none)
    else (card1, some (nullDeref "timeInfoDiv"))
  else if todayStr == dueDateStr then
    if card1.timeInfoDiv then
      ({ card1 with blocks := card1.blocks ++ [⟨[dueTodayBadgeText]⟩] }, none)
    else (card1, some (nullDeref "timeInfoDiv"))
  else (card1, none)

/-- Source `addUpdateAnimation(todoCard)`: the card styles set at once. -/
def addUpdateAnimation (card : Card) : Card :=
  { card with transition := "all 0.3s ease", backgroundColor := "#e8f5e8",
              transform := "scale(1.02)" }

/-- Source `showSuccessMessage(message)`. -/
def showSuccessMessage (s : State) (message : String) : State :=
  { s with banners := s.banners ++ [message],
           timers := s.timers ++ [(3000, TimerAction.removeBanner message)] }

/-- Milliseconds in three days: `3 * 24 * 60 * 60 * 1000`. -/
def threeDaysMs : Int := 3 * 24 * 60 * 60 * 1000

/-- The part of `updateTodoItemOnPage` that rewrites the date display and the
extend control of the card; `now` is the reading of `new Date()`. -/
def patchDueDate (host : DateHost) (now : Int) (card : Card) (newDueDate : String) : Card :=
  let card1 := { card with dueDateDisplay :=
                   card.dueDateDisplay.map fun _ => formatDate host newDueDate }
  match card1.extendBtn with
  | none => card1
  | some btn =>
    let btn1 : ExtendBtnEl := { btn with dataCurrentDueDate := some newDueDate }
    let due := host.parse (newDueDate ++ "T00:00:00")
    let today := host.startOfDay now
    let threeDaysLater := today + threeDaysMs
    let btn2 : ExtendBtnEl :=
      if dateLt (some threeDaysLater) due then { btn1 with display := "none" } else btn1
    { card1 with extendBtn := some btn2 }

/-- Whether `id` can stand between the double quotes of the selector
`[data-todo-id="..."]` as it is, so that the selector tests the attribute for
exactly `id`: it holds no double quote, backslash, line break or NUL. -/
def selectorPlain (id : String) : Bool :=
  id.toList.all fun c =>
    c.toNat != 34 && c.toNat != 92 && c.toNat != 10 && c.toNat != 12 && c.toNat != 13 &&
    c.toNat != 0

/-- Lookup `document.querySelector('[data-todo-id="..."]')?.closest('.todo-item')`:
the first card carrying the id.  For a `selectorPlain` id this is exact.  Any
other id changes the selector text: a double quote or a line break ends the
string early and `querySelector` raises its `SyntaxError`, which is the outcome
taken here for all of them (a backslash escape, or an id crafted so that the
broken text is again a selector, is not followed further). -/
def findCard (cards : List Card) (todoId : Option String) : Except Thrown (Option Card) :=
  if selectorPlain (nullableToString todoId) then
    Except.ok (cards.find? fun c => c.todoId == nullableToString todoId)
  else Except.error ⟨"SyntaxError", "not a valid selector"⟩

/-- The page after the card found by `findCard` has been mutated into `card`. -/
def storeCard (todoId : Option String) (card : Card) : List Card → List Card
  | [] => []
  | c :: rest =>
    if c.todoId == nullableToString todoId then card :: rest
    else c :: storeCard todoId card rest

/-- Source `updateTodoItemOnPage(response)`; `newDueDate` is the string form of
`response.newDueDate` and `nowA`, `nowB` are the two readings of `new Date()`,
in order. -/
def updateTodoItemOnPage (host : DateHost) (nowA nowB : Int) (s : State)
    (newDueDate : String) : Run Unit :=
  match findCard s.cards s.currentTodoId with
  | Except.error e => ⟨s, Except.error e⟩
  | Except.ok none =>
    ⟨{ s with console := s.console ++ ["找不到待辦事項卡片，將重新載入頁面"],
              timers := s.timers ++ [(1000, TimerAction.reloadPage)] }, Except.ok ()⟩
  | Except.ok (some card) =>
    let card1 := patchDueDate host nowA card newDueDate
    let badges := updateWarningBadges host nowB card1 newDueDate
    match badges.2 with
    | some e =>
      ⟨{ s with cards := storeCard s.currentTodoId badges.1 s.cards }, Except.error e⟩
    | none =>
      let card2 := addUpdateAnimation badges.1
      ⟨{ s with cards := storeCard s.currentTodoId card2 s.cards,
                timers := s.timers ++ [(1000, TimerAction.restoreCardColors card2.todoId),
                                       (1300, TimerAction.clearCardTransition card2.todoId)] },
       Except.ok ()⟩

/-! ## Server replies -/

/-- A field of a JSON reply as the controller observes it: whether its value
is truthy and the string JavaScript converts the value to.  The string `s` is
`⟨s != "", s⟩`, the number 42 is `⟨true, "42"⟩`, the empty array is
`⟨true, ""⟩`, `null` is `⟨false, "null"⟩` and an absent field is
`⟨false, "undefined"⟩`. -/
structure JsonField where
  truthy : Bool
  text : String
  deriving DecidableEq, Repr

/-- A field that the reply does not have (`undefined`). -/
def JsonField.missing : JsonField :=
  ⟨false, "undefined"⟩

/-- A field holding the string `s`. -/
def JsonField.ofString (s : String) : JsonField :=
  ⟨s != "", s⟩

/-- A JSON object sent by the server: the fields the controller reads, each
with whatever JSON value it holds.  `success` is the truthiness of the field of
that name. -/
structure ResponseBody where
  success : Bool
  newDueDate : JsonField
  message : JsonField
  error : JsonField
  deriving DecidableEq, Repr

/-- Result of `response.json()`: the parsed object, or the rejection with the
parser's `SyntaxError` when the body is not JSON (bodies that are JSON but not
an object are left out). -/
inductive JsonResult where
  | parsed (body : ResponseBody)
  | malformed (error : Thrown)
  deriving DecidableEq, Repr

/-- How a `fetch` settles: rejected (no response at all), or a response with
its `ok` flag (status 200 to 299) and body. -/
inductive FetchOutcome where
  | rejected (error : Thrown)
  | response (ok : Bool) (json : JsonResult)
  deriving DecidableEq, Repr

/-- A rejection reason travelling down a promise chain: an exception, or the
parsed body passed to `Promise.reject`. -/
inductive Rejection where
  | thrown (error : Thrown)
  | body (body : ResponseBody)
  deriving DecidableEq, Repr

/-- Property `error.message` of a rejection reason. -/
def Rejection.message : Rejection → JsonField
  | Rejection.thrown e => JsonField.ofString e.message
  | Rejection.body b => b.message

/-- Property `error.error` of a rejection reason (exceptions have none). -/
def Rejection.error : Rejection → JsonField
  | Rejection.thrown _ => JsonField.missing
  | Rejection.body b => b.error

/-- Expression `value || fallback`, as the text that `showError` then displays. -/
def orElse (value : JsonField) (fallback : String) : String :=
  if value.truthy then value.text else fallback

/-- First `.then` of both chains: a non-ok response is turned into a rejection
with its parsed body, an ok response into its parsed body. -/
def readResponse (outcome : FetchOutcome) : Except Rejection ResponseBody :=
  match outcome with
  | FetchOutcome.rejected e => Except.error (Rejection.thrown e)
  | FetchOutcome.response _ (JsonResult.malformed e) => Except.error (Rejection.thrown e)
  | FetchOutcome.response ok (JsonResult.parsed body) =>
    if !ok then Except.error (Rejection.body body) else Except.ok body

/-- Second `.then` of the submit chain (`response => ...`): the state it leaves
and the rejection it ends with, if it throws. -/
def onSubmitResponse (host : DateHost) (nowA nowB : Int) (s : State) (response : ResponseBody) :
    State × Option Rejection :=
  if response.success then
    match s.extendModal.bind (fun m => m.shown) with
    | none => (s, some (Rejection.thrown (nullDeref "modal")))
    | some _ =>
      let s1 := { s with extendModal := some ⟨some false⟩ }
      let patched := updateTodoItemOnPage host nowA nowB s1 response.newDueDate.text
      match patched.result with
      | Except.error e => (patched.state, some (Rejection.thrown e))
      | Except.ok _ => (showSuccessMessage patched.state msgExtendSuccess, none)
  else (showError s (orElse response.message msgExtendFailed), none)

/-- The promise chain of `confirmExtension` once the `fetch` has settled, run on
the state of that moment: `.then`, `.then`, `.catch`, `.finally`. -/
def submitSettled (host : DateHost) (nowA nowB : Int) (s : State) (pending : PendingSubmit)
    (outcome : FetchOutcome) : State :=
  let afterThen : State × Option Rejection :=
    match readResponse outcome with
    | Except.error r => (s, some r)
    | Except.ok response => onSubmitResponse host nowA nowB s response
  let afterCatch : State :=
    match afterThen.2 with
    | none => afterThen.1
    | some r => showError afterThen.1 (orElse r.message msgExtendFailedRetry)
  { afterCatch with confirmExtend :=
      afterCatch.confirmExtend.map fun _ => ⟨false, pending.originalText⟩ }

/-- The `.then(data => ...)` handler of the preview chain: the state it leaves
and the rejection it ends with, if it throws. -/
def onPreviewData (host : DateHost) (s : State) (data : ResponseBody) : State × Option Rejection :=
  match s.newDueDate with
  | none => (s, some (Rejection.thrown (nullDeref "document.getElementById(newDueDate)")))
  | some _ =>
    let s1 := { s with newDueDate := some (formatDate host data.newDueDate.text) }
    match s1.datePreviewHelp with
    | none => (s1, some (Rejection.thrown (nullDeref "document.getElementById(datePreviewHelp)")))
    | some _ => (clearError { s1 with datePreviewHelp := some "block" }, none)

/-- The `.catch(error => ...)` handler of the preview chain; an exception raised
inside it ends the chain where it is raised. -/
def onPreviewError (s : State) (r : Rejection) : State :=
  let s2 := showError s (orElse r.error msgPreviewFailed)
  match s2.newDueDate with
  | none => s2
  | some _ =>
    let s3 := { s2 with newDueDate := some "" }
    match s3.datePreviewHelp with
    | none => s3
    | some _ => { s3 with datePreviewHelp := some "none" }

/-- The promise chain of `updatePreview` once the `fetch` has settled, run on
the state of that moment. -/
def previewSettled (host : DateHost) (s : State) (outcome : FetchOutcome) : State :=
  let afterThen : State × Option Rejection :=
    match readResponse outcome with
    | Except.error r => (s, some r)
    | Except.ok data => onPreviewData host s data
  match afterThen.2 with
  | none => afterThen.1
  | some r => onPreviewError afterThen.1 r

/-! ## Event wiring -/

/-- Which element listeners `initEventListeners` registered: each is added only
when its element exists at construction time. -/
structure Listeners where
  input : Bool
  confirm : Bool
  hidden : Bool
  deriving DecidableEq, Repr

/-- Source `initEventListeners()`: the element listeners it registers on a page
(the two document-level click listeners are always registered). -/
def initEventListeners (page : State) : Listeners :=
  { input := page.extensionDays.isSome
    confirm := page.confirmExtend.isSome
    hidden := page.extendModal.isSome }

/-- Statement `document.querySelectorAll('.quick-select').forEach(btn =>
btn.classList.remove('active'))`. -/
def clearQuickSelect (s : State) : State :=
  { s with quickSelect := s.quickSelect.map fun (btn : QuickSelectEl) =>
      ⟨btn.dataDays, classRemove "active" btn.classList⟩ }

/-- The click listener for `.quick-select`, with the clicked element at `index`. -/
def onQuickSelect (s : State) (index : Nat) : Run Unit :=
  match s.quickSelect[index]? with
  | none => ⟨s, Except.ok ()⟩
  | some target =>
    match s.extensionDays with
    | none => ⟨s, Except.error (nullDeref "document.getElementById(extensionDays)")⟩
    | some inp =>
      let s1 := { s with extensionDays := some ⟨target.dataDays.getD "", inp.classList⟩ }
      let s2 := clearQuickSelect s1
      let activate : QuickSelectEl → QuickSelectEl :=
        fun btn => ⟨btn.dataDays, classAdd "active" btn.classList⟩
      let s3 := { s2 with quickSelect := List.modify activate index s2.quickSelect }
      updatePreview s3

/-- What can happen to the page while the controller lives. -/
inductive Event where
  /-- A click inside an `.extend-btn` carrying these three attributes. -/
  | clickExtend (todoId title currentDueDate : Option String)
  /-- A click on the `.quick-select` element at this position. -/
  | clickQuickSelect (index : Nat)
  /-- The user edits the day-count input to this value. -/
  | input (value : String)
  /-- A click on the confirm button. -/
  | clickConfirm
  /-- The modal fires `hidden.bs.modal`. -/
  | hidden
  /-- A preview `fetch` settles. -/
  | previewSettled (outcome : FetchOutcome)
  /-- A submit `fetch` settles; the two numbers are the clock readings. -/
  | submitSettled (pending : PendingSubmit) (outcome : FetchOutcome) (nowA nowB : Int)

/-- The controller's reaction to one event (an exception escaping a listener
ends that listener and leaves the state as it is then). -/
def dispatch (host : DateHost) (reg : Listeners) (s : State) : Event → State
  | Event.clickExtend todoId title due => openExtensionModal host s todoId title due
  | Event.clickQuickSelect index => (onQuickSelect s index).state
  | Event.input value =>
    let s1 := { s with extensionDays := s.extensionDays.map fun (inp : InputEl) =>
                  ⟨value, inp.classList⟩ }
    if reg.input then (updatePreview (clearQuickSelect s1)).state else s1
  | Event.clickConfirm => if reg.confirm then (confirmExtension s).state else s
  | Event.hidden => if reg.hidden then resetModal s else s
  | Event.previewSettled outcome => previewSettled host s outcome
  | Event.submitSettled pending outcome nowA nowB => submitSettled host nowA nowB s pending outcome

/-- The state after a sequence of events. -/
def run (host : DateHost) (reg : Listeners) (s : State) (events : List Event) : State :=
  events.foldl (dispatch host reg) s

/-- Whether an event opens the modal for an item. -/
def Event.isOpen : Event → Bool
  | Event.clickExtend _ _ _ => true
  | _ => false

/-! ## A concrete host: ISO dates in UTC -/

/-- Day number (days since 1970-01-01) of a civil date of the proleptic Gregorian calendar. -/
def daysFromCivil (year month day : Int) : Int :=
  let y := if month ≤ 2 then year - 1 else year
  let era := y / 400
  let yoe := y - era * 400
  let mp := (month + 9) % 12
  let doy := (153 * mp + 2) / 5 + day - 1
  let doe := yoe * 365 + yoe / 4 - yoe / 100 + doy
  era * 146097 + doe - 719468

/-- Civil date (year, month, day) of a day number. -/
def civilFromDays (days : Int) : Int × Int × Int :=
  let z := days + 719468
  let era := z / 146097
  let doe := z - era * 146097
  let yoe := (doe - doe / 1460 + doe / 36524 - doe / 146096) / 365
  let doy := doe - (365 * yoe + yoe / 4 - yoe / 100)
  let mp := (5 * doy + 2) / 153
  let day := doy - (153 * mp + 2) / 5 + 1
  let month := if mp < 10 then mp + 3 else mp - 9
  let year := yoe + era * 400 + (if month ≤ 2 then 1 else 0)
  (year, month, day)

/-- Number read from a run of decimal digits, `none` if a character is not a digit. -/
def decimal (cs : List Char) : Option Int :=
  if cs.all (isRadixDigit 10) && !cs.isEmpty then some (digitsValue 10 cs : Nat) else none

/-- Milliseconds in a day. -/
def dayMs : Int := 86400000

/-- Strict parser for `YYYY-MM-DDTHH:mm:ss`, read as UTC. -/
def parseIsoUtc (text : String) : Option Int :=
  let cs := text.toList
  if cs.length = 19 ∧ cs.get? 4 = some '-' ∧ cs.get? 7 = some '-' ∧ cs.get? 10 = some 'T'
      ∧ cs.get? 13 = some ':' ∧ cs.get? 16 = some ':' then
    match decimal (cs.take 4), decimal ((cs.drop 5).take 2), decimal ((cs.drop 8).take 2),
          decimal ((cs.drop 11).take 2), decimal ((cs.drop 14).take 2),
          decimal ((cs.drop 17).take 2) with
    | some y, some m, some d, some hh, some mm, some ss =>
      let days := daysFromCivil y m d
      if 1 ≤ m ∧ m ≤ 12 ∧ 1 ≤ d ∧ civilFromDays days = (y, m, d)
          ∧ hh ≤ 23 ∧ mm ≤ 59 ∧ ss ≤ 59 then
        some (days * dayMs + hh * 3600000 + mm * 60000 + ss * 1000)
      else none
    | _, _, _, _, _, _ => none
  else none

/-- Two-digit rendering of a month or day. -/
def pad2 (n : Int) : String :=
  if n < 10 then "0" ++ toString n else toString n

/-- A host whose local time zone is UTC and whose `Date` accepts only the
ISO date-time form; `zh-TW` dates print as `YYYY/MM/DD`. -/
def utcHost : DateHost where
  parse := parseIsoUtc
  startOfDay := fun t => t / dayMs * dayMs
  localDay := fun t => t / dayMs
  toLocaleDateString := fun t =>
    match civilFromDays (t / dayMs) with
    | (y, m, d) => toString y ++ "/" ++ pad2 m ++ "/" ++ pad2 d

/-! ## A sample page -/

/-- The card of item 7, due 2025-01-10, with its extend control, date display and time-info row. -/
def sampleCard : Card where
  todoId := "7"
  dueDateDisplay := some "2025/01/10"
  extendBtn := some ⟨some "2025-01-10", ""⟩
  timeInfoDiv := true
  blocks := [⟨["高優先級"]⟩, ⟨[dueTodayBadgeText]⟩]
  transition := ""
  backgroundColor := ""
  transform := ""

/-- A list page with the modal and all its elements, three quick-select
buttons and the card of item 7; nothing is open yet. -/
def samplePage : State where
  currentTodoId := none
  currentDueDate := none
  todoTitle := some ""
  currentDueDateSpan := some ""
  extensionDays := some ⟨"", []⟩
  newDueDate := some ""
  datePreviewHelp := some "none"
  errorMessage := some "none"
  errorText := some ""
  confirmExtend := some ⟨false, "確認延期"⟩
  extendModal := some ⟨none⟩
  quickSelect := [⟨some "1", ["quick-select"]⟩, ⟨some "3", ["quick-select"]⟩,
                  ⟨some "7", ["quick-select"]⟩]
  csrfToken := some "token-1"
  csrfHeader := some "X-CSRF-TOKEN"
  cards := [sampleCard]
  banners := []
  requests := []
  alerts := []
  console := []
  timers := []

/-- The sample page with the modal open for item 7 and a day count typed in. -/
def openPage (days : String) : State :=
  let opened := openExtensionModal utcHost samplePage (some "7") (some "Task A") (some "2025-01-10")
  { opened with extensionDays := some ⟨days, []⟩ }

/-- The clock of the examples: 2025-01-10, 09:30 UTC. -/
def sampleNow : Int := 1736501400000

/-- The sample page after a valid submit of 5 days: the request is in flight. -/
def submittedPage : State :=
  (confirmExtension (openPage "5")).state

/-! ## Notions used by the statements -/

/-- The state `validateInput` leaves when it rejects with `message`: the
previous validation state cleared, the message shown, the input marked. -/
def rejectedState (s : State) (inp : InputEl) (message : String) : State :=
  let cleared : InputEl := ⟨inp.value, classRemove "is-invalid" inp.classList⟩
  markInvalid (showError (clearError { s with extensionDays := some cleared }) message)

/-- The step from `before` to `after` has shown `message` as an error the way
`showError` does: in the error box when `before` has both error elements,
otherwise through `alert`. -/
def ShowsError (before after : State) (message : String) : Prop :=
  if before.errorMessage.isSome && before.errorText.isSome then
    after.errorText = some message ∧ after.errorMessage = some "block" ∧
      after.alerts = before.alerts
  else
    after.errorText = before.errorText ∧ after.alerts = before.alerts ++ [message]

instance (before after : State) (message : String) :
    Decidable (ShowsError before after message) := by
  unfold ShowsError
  infer_instance

/-- The open sample page with 400 typed in, on which the two error elements are missing. -/
def pageWithoutErrorBox : State :=
  { openPage "400" with errorMessage := none, errorText := none }

/-- Two states hold the same session fields `currentTodoId` and `currentDueDate`. -/
def SameSession (a b : State) : Prop :=
  a.currentTodoId = b.currentTodoId ∧ a.currentDueDate = b.currentDueDate

instance (a b : State) : Decidable (SameSession a b) := by
  unfold SameSession
  infer_instance

/-- Number of `.badge` elements of the card whose text includes `mark`. -/
def Card.countBadges (card : Card) (mark : String) : Nat :=
  (card.blocks.map fun b => (b.badges.filter fun text => includes text mark).length).sum

/-- The sample card without the `.d-flex.flex-wrap.gap-3` row. -/
def cardWithoutRow : Card :=
  { sampleCard with timeInfoDiv := false }

/-- The open sample page with 0 typed in and the preview helper showing, on
which the preview text element `#newDueDate` is missing. -/
def pageWithoutPreviewText : State :=
  { openPage "0" with newDueDate := none, datePreviewHelp := some "block" }

/-! ## Validation (C1, C2, C3) -/

theorem validateInput_result (s : State) (d : JSNum) (inp : InputEl)
    (h : s.extensionDays = some inp) :
    (validateInput s d).result =
      Except.ok (match d with
        | JSNum.nan => false
        | JSNum.int n => decide (1 ≤ n ∧ n ≤ 365)
        | JSNum.inf _ => false) := by
  unfold validateInput
  rw [h]
  cases d with
  | nan => simp [JSNum.truthy, JSNum.isNaN]
  | inf negative => cases negative <;> simp [JSNum.truthy, JSNum.isNaN, JSNum.le, JSNum.gt]
  | int n =>
    simp only [JSNum.truthy, JSNum.isNaN, JSNum.le, JSNum.gt]
    by_cases h0 : n = 0
    · subst h0; simp
    · by_cases h1 : n ≤ 0
      · have : ¬ (1 ≤ n) := by omega
        simp [h0, h1, this]
      · by_cases h2 : 365 < n
        · have : ¬ (n ≤ 365) := by omega
          simp [h0, h1, h2, this]
        · have h3 : 1 ≤ n := by omega
          have h4 : n ≤ 365 := by omega
          simp [h0, h1, h2, h3, h4]

/-- C1: on a page that has the day-count input (`confirmExtension`, the only
caller, has read the input's value just before), `validateInput(d)` returns
`true` exactly when `d` is an integer with `1 ≤ d ≤ 365`, and returns `false`
for `NaN` and for every other integer (every `d ≤ 0`, every `d > 365`). -/
theorem validateInput_true_iff (s : State) (d : JSNum) (h : s.extensionDays.isSome = true) :
    ((validateInput s d).result = Except.ok true ↔
        ∃ n : Int, d = JSNum.int n ∧ 1 ≤ n ∧ n ≤ 365) ∧
    ((validateInput s d).result = Except.ok false ↔
        ¬ ∃ n : Int, d = JSNum.int n ∧ 1 ≤ n ∧ n ≤ 365) := by
  obtain ⟨inp, hinp⟩ := Option.isSome_iff_exists.mp h
  rw [validateInput_result s d inp hinp]
  cases d with
  | nan => simp
  | inf negative => simp
  | int n =>
    by_cases hr : 1 ≤ n ∧ n ≤ 365
    · simp [hr]
    · simp [hr]

theorem validateInput_true_iff_witness :
    samplePage.extensionDays.isSome = true ∧
    (validateInput samplePage (JSNum.int 365)).result = Except.ok true ∧
    (validateInput samplePage (JSNum.int 366)).result = Except.ok false ∧
    (validateInput samplePage (JSNum.int 0)).result = Except.ok false ∧
    (validateInput samplePage JSNum.nan).result = Except.ok false :=
  ⟨by decide,
   (validateInput_true_iff samplePage (JSNum.int 365) (by decide)).1.mpr ⟨365, rfl, by decide⟩,
   (validateInput_true_iff samplePage (JSNum.int 366) (by decide)).2.mpr
     (by rintro ⟨n, hn, _, h2⟩; cases hn; exact absurd h2 (by decide)),
   (validateInput_true_iff samplePage (JSNum.int 0) (by decide)).2.mpr
     (by rintro ⟨n, hn, h1, _⟩; cases hn; exact absurd h1 (by decide)),
   (validateInput_true_iff samplePage JSNum.nan (by decide)).2.mpr
     (by rintro ⟨n, hn, _⟩; cases hn)⟩

theorem mem_classAdd (token : String) (classes : List String) :
    token ∈ classAdd token classes := by
  unfold classAdd
  split <;> simp_all

theorem not_mem_classRemove (token : String) (classes : List String) :
    token ∉ classRemove token classes := by
  simp [classRemove]

theorem classRemove_idem (token : String) (classes : List String) :
    classRemove token (classRemove token classes) = classRemove token classes := by
  simp [classRemove, List.filter_filter]

theorem validateInput_state (s : State) (d : JSNum) (inp : InputEl)
    (hInput : s.extensionDays = some inp) :
    (validateInput s d).state =
      match d with
      | JSNum.nan => rejectedState s inp msgInvalidDays
      | JSNum.inf negative =>
        if negative = true then rejectedState s inp msgMustBePositive
        else rejectedState s inp msgExceedsMax
      | JSNum.int n =>
        if n = 0 then rejectedState s inp msgInvalidDays
        else if n < 0 then rejectedState s inp msgMustBePositive
        else if 365 < n then rejectedState s inp msgExceedsMax
        else clearError
          { s with extensionDays := some ⟨inp.value, classRemove "is-invalid" inp.classList⟩ } := by
  unfold validateInput
  rw [hInput]
  cases d with
  | nan => simp [JSNum.truthy, JSNum.isNaN, rejectedState]
  | inf negative =>
    cases negative <;> simp [JSNum.truthy, JSNum.isNaN, JSNum.le, JSNum.gt, rejectedState]
  | int n =>
    simp only [JSNum.truthy, JSNum.isNaN, JSNum.le, JSNum.gt]
    by_cases h0 : n = 0
    · subst h0
      simp [rejectedState]
    · by_cases h1 : n < 0
      · have h1' : n ≤ 0 := by omega
        simp [h0, h1, h1', rejectedState]
      · have h1' : ¬ n ≤ 0 := by omega
        by_cases h2 : 365 < n
        · simp [h0, h1, h1', h2, rejectedState]
        · simp [h0, h1, h1', h2]

theorem rejectedState_shows (s : State) (inp : InputEl) (m : String) :
    ShowsError s (rejectedState s inp m) m := by
  unfold ShowsError rejectedState markInvalid showError clearError
  cases h1 : s.errorMessage <;> cases h2 : s.errorText <;> simp [h1, h2]

theorem rejectedState_frame (s : State) (inp : InputEl) (m : String) :
    (rejectedState s inp m).requests = s.requests ∧
    (rejectedState s inp m).confirmExtend = s.confirmExtend ∧
    (rejectedState s inp m).extendModal = s.extendModal ∧
    (rejectedState s inp m).extensionDays =
      some ⟨inp.value, classAdd "is-invalid" (classRemove "is-invalid" inp.classList)⟩ := by
  unfold rejectedState markInvalid showError clearError
  cases h1 : s.errorMessage <;> cases h2 : s.errorText <;> simp [h1, h2]

/-- C2: what `validateInput` shows on a page with the day-count input (in the
error box, or by `alert` when the page lacks the error elements): `NaN` and `0`
get the "invalid day count" message, every negative integer the "must be
positive" message, every integer above 365 the "exceeds maximum" message, and
each rejection marks the input `is-invalid`.  The value `0` is caught by the
first test (`!days`), not by `days <= 0`. -/
theorem validateInput_error_policy (s : State) (d : JSNum)
    (hInput : s.extensionDays.isSome = true) :
    (d = JSNum.nan ∨ d = JSNum.int 0 →
        ShowsError s (validateInput s d).state msgInvalidDays) ∧
    (∀ n : Int, d = JSNum.int n → n < 0 →
        ShowsError s (validateInput s d).state msgMustBePositive) ∧
    (∀ n : Int, d = JSNum.int n → 365 < n →
        ShowsError s (validateInput s d).state msgExceedsMax) ∧
    ((validateInput s d).result = Except.ok false →
        ∃ inp, (validateInput s d).state.extensionDays = some inp ∧
          "is-invalid" ∈ inp.classList) := by
  obtain ⟨inp, hinp⟩ := Option.isSome_iff_exists.mp hInput
  rw [validateInput_state s d inp hinp, validateInput_result s d inp hinp]
  refine ⟨?_, ?_, ?_, ?_⟩
  · rintro (h | h) <;> subst h
    · exact rejectedState_shows s inp _
    · simp only [if_true]
      exact rejectedState_shows s inp _
  · intro n hn hneg
    subst hn
    have h0 : n ≠ 0 := by omega
    simp only [h0, hneg, if_true, if_false]
    exact rejectedState_shows s inp _
  · intro n hn hbig
    subst hn
    have h0 : n ≠ 0 := by omega
    have h1 : ¬ n < 0 := by omega
    simp only [h0, h1, hbig, if_true, if_false]
    exact rejectedState_shows s inp _
  · intro hres
    cases d with
    | nan => exact ⟨_, (rejectedState_frame s inp _).2.2.2, mem_classAdd _ _⟩
    | inf negative =>
      cases negative
      · exact ⟨_, (rejectedState_frame s inp _).2.2.2, mem_classAdd _ _⟩
      · exact ⟨_, (rejectedState_frame s inp _).2.2.2, mem_classAdd _ _⟩
    | int n =>
      simp only [Except.ok.injEq, decide_eq_false_iff_not] at hres
      by_cases h0 : n = 0
      · simp only [h0, if_true]
        exact ⟨_, (rejectedState_frame s inp _).2.2.2, mem_classAdd _ _⟩
      · by_cases h1 : n < 0
        · simp only [h0, h1, if_true, if_false]
          exact ⟨_, (rejectedState_frame s inp _).2.2.2, mem_classAdd _ _⟩
        · have h2 : 365 < n := by omega
          simp only [h0, h1, h2, if_true, if_false]
          exact ⟨_, (rejectedState_frame s inp _).2.2.2, mem_classAdd _ _⟩

theorem validateInput_error_policy_witness :
    samplePage.extensionDays.isSome = true ∧
    ShowsError samplePage (validateInput samplePage (JSNum.int 0)).state msgInvalidDays ∧
    (validateInput samplePage (JSNum.int 0)).state.errorText = some msgInvalidDays ∧
    msgInvalidDays ≠ msgMustBePositive ∧
    ShowsError samplePage (validateInput samplePage (JSNum.int (-2))).state msgMustBePositive ∧
    ShowsError samplePage (validateInput samplePage (JSNum.int 400)).state msgExceedsMax :=
  ⟨by decide,
   (validateInput_error_policy samplePage (JSNum.int 0) (by decide)).1 (Or.inr rfl),
   by decide, by decide,
   (validateInput_error_policy samplePage (JSNum.int (-2)) (by decide)).2.1 (-2) rfl (by decide),
   (validateInput_error_policy samplePage (JSNum.int 400) (by decide)).2.2.1 400 rfl
     (by decide)⟩

theorem confirmExtension_rejected (s : State) (inp : InputEl)
    (hInput : s.extensionDays = some inp)
    (hRes : (validateInput s (parseInt inp.value)).result = Except.ok false) :
    confirmExtension s = ⟨(validateInput s (parseInt inp.value)).state, Except.ok none⟩ := by
  unfold confirmExtension
  rw [hInput]
  simp only [hRes]

/-- C3, as the code has it: when the day-count input parses to an invalid value
(`NaN`, `d <= 0` or `d > 365`), `confirmExtension` returns without issuing a
request, leaves the confirm control and the modal as they are, and shows the
validation message of that value (above 365, such as 400, the "exceeds
maximum" message): in the error box when the page has both error elements,
through `alert` when it has not. -/
theorem confirmExtension_invalid_input (s : State) (inp : InputEl)
    (hInput : s.extensionDays = some inp)
    (hInvalid : ¬ ∃ n : Int, parseInt inp.value = JSNum.int n ∧ 1 ≤ n ∧ n ≤ 365) :
    (confirmExtension s).result = Except.ok none ∧
    (confirmExtension s).state.requests = s.requests ∧
    (confirmExtension s).state.confirmExtend = s.confirmExtend ∧
    (confirmExtension s).state.extendModal = s.extendModal ∧
    (parseInt inp.value = JSNum.nan ∨ parseInt inp.value = JSNum.int 0 →
        ShowsError s (confirmExtension s).state msgInvalidDays) ∧
    (∀ n : Int, parseInt inp.value = JSNum.int n → n < 0 →
        ShowsError s (confirmExtension s).state msgMustBePositive) ∧
    (∀ n : Int, parseInt inp.value = JSNum.int n → 365 < n →
        ShowsError s (confirmExtension s).state msgExceedsMax) := by
  have hRes : (validateInput s (parseInt inp.value)).result = Except.ok false := by
    rw [validateInput_result s _ inp hInput]
    cases hp : parseInt inp.value with
    | nan => rfl
    | inf negative => rfl
    | int n =>
      have : ¬ (1 ≤ n ∧ n ≤ 365) := fun h => hInvalid ⟨n, hp, h⟩
      simp [this]
  rw [confirmExtension_rejected s inp hInput hRes]
  simp only
  rw [validateInput_state s _ inp hInput]
  cases hp : parseInt inp.value with
  | nan =>
    have hf := rejectedState_frame s inp msgInvalidDays
    refine ⟨trivial, hf.1, hf.2.1, hf.2.2.1, fun _ => rejectedState_shows s inp _, ?_, ?_⟩
    · intro n hn; cases hn
    · intro n hn; cases hn
  | inf negative =>
    cases negative
    · have hf := rejectedState_frame s inp msgExceedsMax
      refine ⟨trivial, hf.1, hf.2.1, hf.2.2.1, ?_, ?_, ?_⟩
      · rintro (h | h) <;> cases h
      · intro n hn; cases hn
      · intro n hn; cases hn
    · have hf := rejectedState_frame s inp msgMustBePositive
      refine ⟨trivial, hf.1, hf.2.1, hf.2.2.1, ?_, ?_, ?_⟩
      · rintro (h | h) <;> cases h
      · intro n hn; cases hn
      · intro n hn; cases hn
  | int n =>
    have hr : ¬ (1 ≤ n ∧ n ≤ 365) := fun h => hInvalid ⟨n, hp, h⟩
    by_cases h0 : n = 0
    · subst h0
      simp only [if_true]
      have hf := rejectedState_frame s inp msgInvalidDays
      refine ⟨trivial, hf.1, hf.2.1, hf.2.2.1, fun _ => rejectedState_shows s inp _, ?_, ?_⟩
      · intro n hn hlt; cases hn; omega
      · intro n hn hgt; cases hn; omega
    · by_cases h1 : n < 0
      · simp only [h0, h1, if_true, if_false]
        have hf := rejectedState_frame s inp msgMustBePositive
        refine ⟨trivial, hf.1, hf.2.1, hf.2.2.1, ?_, fun _ _ _ => rejectedState_shows s inp _, ?_⟩
        · rintro (h | h)
          · cases h
          · cases h; omega
        · intro m hm hgt; cases hm; omega
      · have h2 : 365 < n := by omega
        simp only [h0, h1, h2, if_true, if_false]
        have hf := rejectedState_frame s inp msgExceedsMax
        refine ⟨trivial, hf.1, hf.2.1, hf.2.2.1, ?_, ?_, fun _ _ _ => rejectedState_shows s inp _⟩
        · rintro (h | h)
          · cases h
          · cases h; omega
        · intro m hm hlt; cases hm; omega

theorem confirmExtension_invalid_input_witness :
    (openPage "400").extensionDays = some ⟨"400", []⟩ ∧
    parseInt "400" = JSNum.int 400 ∧
    (confirmExtension (openPage "400")).state.requests = [] ∧
    (confirmExtension (openPage "400")).state.confirmExtend = some ⟨false, "確認延期"⟩ ∧
    (confirmExtension (openPage "400")).state.extendModal = some ⟨some true⟩ ∧
    ShowsError (openPage "400") (confirmExtension (openPage "400")).state msgExceedsMax ∧
    (confirmExtension (openPage "400")).state.errorText = some msgExceedsMax :=
  have h := confirmExtension_invalid_input (openPage "400") ⟨"400", []⟩ rfl
    (by
      rintro ⟨n, hn, _, h2⟩
      have h400 : parseInt "400" = JSNum.int 400 := by decide
      have hEq : JSNum.int 400 = JSNum.int n := h400.symm.trans hn
      injection hEq with hEq
      omega)
  ⟨rfl, by decide, h.2.1, h.2.2.1, h.2.2.2.1,
   h.2.2.2.2.2.2 400 (by decide) (by decide), by decide⟩

/-- C3 fails as stated on a page without the error elements: the input holds
400, no request is issued, but no inline error appears; the "exceeds maximum"
message goes to `alert`. -/
theorem confirmExtension_without_error_box :
    pageWithoutErrorBox.extensionDays = some ⟨"400", []⟩ ∧
    parseInt "400" = JSNum.int 400 ∧
    (confirmExtension pageWithoutErrorBox).state.requests = [] ∧
    (confirmExtension pageWithoutErrorBox).state.errorText = none ∧
    (confirmExtension pageWithoutErrorBox).state.errorMessage = none ∧
    (confirmExtension pageWithoutErrorBox).state.alerts = [msgExceedsMax] := by
  decide

/-! ## The modal form (C9, C10) -/

theorem resetModal_eq (s : State) :
    resetModal s =
      { s with
        extensionDays := s.extensionDays.map fun (inp : InputEl) =>
          ⟨"", classRemove "is-invalid" inp.classList⟩
        newDueDate := s.newDueDate.map fun _ => ""
        datePreviewHelp := s.datePreviewHelp.map fun _ => "none"
        quickSelect := s.quickSelect.map fun (btn : QuickSelectEl) =>
          ⟨btn.dataDays, classRemove "active" btn.classList⟩
        errorMessage := s.errorMessage.map fun _ => "none" } := by
  unfold resetModal clearError
  cases h : s.errorMessage <;> simp [h]

/-- C9: `resetModal` is idempotent, and it clears what the page has: every
day-count input is left in place with an empty value and without the
`is-invalid` marker, a preview text element is left with empty text, a preview
helper is left hidden, each quick-select button stays where it is without the
`active` marker, and an error box is left hidden (a page without one of these
elements stays without it). -/
theorem resetModal_idempotent (s : State) :
    resetModal (resetModal s) = resetModal s ∧
    (∀ inp, s.extensionDays = some inp →
        ∃ cleared, (resetModal s).extensionDays = some cleared ∧
          cleared.value = "" ∧ "is-invalid" ∉ cleared.classList) ∧
    (s.extensionDays = none → (resetModal s).extensionDays = none) ∧
    (resetModal s).newDueDate = (if s.newDueDate.isSome then some "" else none) ∧
    (resetModal s).datePreviewHelp = (if s.datePreviewHelp.isSome then some "none" else none) ∧
    (resetModal s).quickSelect.length = s.quickSelect.length ∧
    (∀ btn ∈ (resetModal s).quickSelect, "active" ∉ btn.classList) ∧
    (resetModal s).errorMessage = (if s.errorMessage.isSome then some "none" else none) := by
  refine ⟨?_, ?_, ?_, ?_, ?_, ?_, ?_, ?_⟩
  · rw [resetModal_eq (resetModal s), resetModal_eq s]
    simp [Option.map_map, List.map_map, Function.comp_def, classRemove_idem]
  · intro inp h
    rw [resetModal_eq]
    exact ⟨⟨"", classRemove "is-invalid" inp.classList⟩, by simp [h], rfl,
      not_mem_classRemove _ _⟩
  · intro h
    rw [resetModal_eq]
    simp [h]
  · rw [resetModal_eq]
    cases h : s.newDueDate <;> simp [h]
  · rw [resetModal_eq]
    cases h : s.datePreviewHelp <;> simp [h]
  · rw [resetModal_eq]
    simp
  · intro btn h
    rw [resetModal_eq] at h
    simp only [List.mem_map] at h
    obtain ⟨old, _, rfl⟩ := h
    exact not_mem_classRemove _ _
  · rw [resetModal_eq]
    cases h : s.errorMessage <;> simp [h]

/-- What `updatePreview` does on a page that has the day-count input.  A request
is issued exactly when the value parses to a number above zero (an integer
`d >= 1`, or `Infinity` for a digit run beyond the double range), and it is the
single `GET /todos/{currentTodoId}/extend/preview?days={d}`.  Otherwise no
request is issued, and the preview is cleared as far as the unguarded lookups
allow: a missing `#newDueDate` raises a `TypeError` before anything is changed,
a missing `#datePreviewHelp` raises it after the preview text has been emptied. -/
theorem updatePreview_requests (s : State) (inp : InputEl)
    (hInput : s.extensionDays = some inp) :
    ((updatePreview s).state.requests ≠ s.requests ↔
        ((∃ d : Int, parseInt inp.value = JSNum.int d ∧ 1 ≤ d) ∨
          parseInt inp.value = JSNum.inf false)) ∧
    (((∃ d : Int, parseInt inp.value = JSNum.int d ∧ 1 ≤ d) ∨
        parseInt inp.value = JSNum.inf false) →
        (updatePreview s).result = Except.ok () ∧
        (updatePreview s).state.requests = s.requests ++
          [{ method := "GET"
             url := "/todos/" ++ nullableToString s.currentTodoId ++
                    "/extend/preview?days=" ++ (parseInt inp.value).render
             headers := [("Content-Type", "application/json"),
                         ("X-Requested-With", "XMLHttpRequest")]
             body := none }]) ∧
    (¬ ((∃ d : Int, parseInt inp.value = JSNum.int d ∧ 1 ≤ d) ∨
        parseInt inp.value = JSNum.inf false) →
        (updatePreview s).state.requests = s.requests ∧
        (s.newDueDate = none →
          updatePreview s =
            ⟨s, Except.error (nullDeref "document.getElementById(newDueDate)")⟩) ∧
        (s.newDueDate.isSome = true → s.datePreviewHelp = none →
          (updatePreview s).result =
            Except.error (nullDeref "document.getElementById(datePreviewHelp)") ∧
          (updatePreview s).state.newDueDate = some "") ∧
        (s.newDueDate.isSome = true → s.datePreviewHelp.isSome = true →
          (updatePreview s).result = Except.ok () ∧
          (updatePreview s).state.newDueDate = some "" ∧
          (updatePreview s).state.datePreviewHelp = some "none")) := by
  have hPos : ((∃ d : Int, parseInt inp.value = JSNum.int d ∧ 1 ≤ d) ∨
        parseInt inp.value = JSNum.inf false) →
      updatePreview s =
        ⟨{ s with requests := s.requests ++
            [previewRequest s.currentTodoId (parseInt inp.value)] }, Except.ok ()⟩ := by
    intro hd
    have hc : (!(parseInt inp.value).truthy || (parseInt inp.value).le 0) = false := by
      rcases hd with ⟨d, hd, h1⟩ | hd
      · have h0 : d ≠ 0 := by omega
        have h2 : ¬ d ≤ 0 := by omega
        simp [hd, JSNum.truthy, JSNum.le, h0, h2]
      · simp [hd, JSNum.truthy, JSNum.le]
    unfold updatePreview
    rw [hInput]
    simp only [hc, Bool.false_eq_true, if_false]
  have hNeg : ¬ ((∃ d : Int, parseInt inp.value = JSNum.int d ∧ 1 ≤ d) ∨
        parseInt inp.value = JSNum.inf false) →
      (updatePreview s).state.requests = s.requests ∧
      (s.newDueDate = none →
        updatePreview s =
          ⟨s, Except.error (nullDeref "document.getElementById(newDueDate)")⟩) ∧
      (s.newDueDate.isSome = true → s.datePreviewHelp = none →
        (updatePreview s).result =
          Except.error (nullDeref "document.getElementById(datePreviewHelp)") ∧
        (updatePreview s).state.newDueDate = some "") ∧
      (s.newDueDate.isSome = true → s.datePreviewHelp.isSome = true →
        (updatePreview s).result = Except.ok () ∧
        (updatePreview s).state.newDueDate = some "" ∧
        (updatePreview s).state.datePreviewHelp = some "none") := by
    intro hno
    have hc : (!(parseInt inp.value).truthy || (parseInt inp.value).le 0) = true := by
      cases hp : parseInt inp.value with
      | nan => rfl
      | inf negative =>
        cases negative
        · exact absurd (Or.inr hp) hno
        · rfl
      | int n =>
        have : ¬ 1 ≤ n := fun h => hno (Or.inl ⟨n, hp, h⟩)
        by_cases h0 : n = 0
        · simp [JSNum.truthy, JSNum.le, h0]
        · have : n ≤ 0 := by omega
          simp [JSNum.truthy, JSNum.le, this]
    unfold updatePreview
    rw [hInput]
    simp only [hc, if_true]
    cases hN : s.newDueDate with
    | none => simp
    | some t =>
      cases hH : s.datePreviewHelp with
      | none => simp [hH]
      | some h => simp [hH]
  refine ⟨?_, ?_, hNeg⟩
  · constructor
    · intro hne
      by_contra hno
      exact hne (hNeg hno).1
    · intro hd
      rw [hPos hd]
      simp
  · intro hd
    rw [hPos hd]
    exact ⟨rfl, rfl⟩

/-- C10 at a page without `#newDueDate`: the input holds 0 and the preview
helper is showing; `updatePreview` issues no request but throws at
`document.getElementById('newDueDate').textContent = ''`, so the helper is
still showing afterwards.  (`resetModal` guards the same two lookups.) -/
theorem updatePreview_without_preview_text :
    pageWithoutPreviewText.extensionDays = some ⟨"0", []⟩ ∧
    parseInt "0" = JSNum.int 0 ∧
    pageWithoutPreviewText.datePreviewHelp = some "block" ∧
    (updatePreview pageWithoutPreviewText).result =
      Except.error (nullDeref "document.getElementById(newDueDate)") ∧
    (updatePreview pageWithoutPreviewText).state.datePreviewHelp = some "block" ∧
    (updatePreview pageWithoutPreviewText).state.requests = [] ∧
    (resetModal pageWithoutPreviewText).datePreviewHelp = some "none" :=
  ⟨by decide, by decide, by decide, rfl, by decide, by decide, by decide⟩

/-- The preview requests that `updatePreview` sends from the open sample page
for a few day counts, the large ones as the doubles they parse to. -/
theorem updatePreview_sample_urls :
    ((updatePreview (openPage "5")).state.requests.map fun r => r.url)
      = ["/todos/7/extend/preview?days=5"] ∧
    ((updatePreview (openPage "9007199254740993")).state.requests.map fun r => r.url)
      = ["/todos/7/extend/preview?days=9007199254740992"] ∧
    ((updatePreview (openPage "1000000000000000000000")).state.requests.map fun r => r.url)
      = ["/todos/7/extend/preview?days=1e+21"] ∧
    ((updatePreview (openPage "0x10")).state.requests.map fun r => r.url)
      = ["/todos/7/extend/preview?days=16"] := by
  decide

set_option maxRecDepth 100000 in
set_option exponentiation.threshold 2000 in
/-- A run of 309 nines parses to `Infinity`, which is above zero, so
`updatePreview` sends a request for it. -/
theorem updatePreview_infinity :
    parseInt (String.mk (List.replicate 309 '9')) = JSNum.inf false ∧
    ((updatePreview (openPage (String.mk (List.replicate 309 '9')))).state.requests.map
      fun r => r.url) = ["/todos/7/extend/preview?days=Infinity"] := by
  decide

/-! ## Session state (C7) -/

theorem SameSession.refl (a : State) : SameSession a a := ⟨rfl, rfl⟩

theorem SameSession.trans {a b c : State} (h1 : SameSession a b) (h2 : SameSession b c) :
    SameSession a c := ⟨h1.1.trans h2.1, h1.2.trans h2.2⟩

theorem clearError_session (s : State) : SameSession (clearError s) s := by
  unfold clearError
  split <;> exact ⟨rfl, rfl⟩

theorem showError_session (s : State) (m : String) : SameSession (showError s m) s := by
  unfold showError
  split <;> exact ⟨rfl, rfl⟩

theorem resetModal_session (s : State) : SameSession (resetModal s) s := by
  rw [resetModal_eq]
  exact ⟨rfl, rfl⟩

theorem validateInput_session (s : State) (d : JSNum) :
    SameSession (validateInput s d).state s := by
  unfold validateInput
  cases h : s.extensionDays with
  | none => exact ⟨rfl, rfl⟩
  | some inp =>
    simp only
    split
    · exact (SameSession.trans ⟨rfl, rfl⟩ (showError_session _ _)).trans
        (SameSession.trans (clearError_session _) ⟨rfl, rfl⟩)
    · split
      · exact (SameSession.trans ⟨rfl, rfl⟩ (showError_session _ _)).trans
          (SameSession.trans (clearError_session _) ⟨rfl, rfl⟩)
      · split
        · exact (SameSession.trans ⟨rfl, rfl⟩ (showError_session _ _)).trans
            (SameSession.trans (clearError_session _) ⟨rfl, rfl⟩)
        · exact SameSession.trans (clearError_session _) ⟨rfl, rfl⟩

theorem updatePreview_session (s : State) : SameSession (updatePreview s).state s := by
  unfold updatePreview
  cases s.extensionDays with
  | none => exact ⟨rfl, rfl⟩
  | some inp =>
    simp only
    split
    · cases s.newDueDate with
      | none => exact ⟨rfl, rfl⟩
      | some t =>
        simp only
        cases s.datePreviewHelp <;> exact ⟨rfl, rfl⟩
    · exact ⟨rfl, rfl⟩

theorem confirmExtension_session (s : State) : SameSession (confirmExtension s).state s := by
  unfold confirmExtension
  cases s.extensionDays with
  | none => exact ⟨rfl, rfl⟩
  | some inp =>
    simp only
    have hv := validateInput_session s (parseInt inp.value)
    split
    · exact hv
    · exact hv
    · split
      · exact hv
      · exact SameSession.trans ⟨rfl, rfl⟩ hv

theorem onQuickSelect_session (s : State) (i : Nat) :
    SameSession (onQuickSelect s i).state s := by
  unfold onQuickSelect
  cases s.quickSelect[i]? with
  | none => exact ⟨rfl, rfl⟩
  | some target =>
    simp only
    cases s.extensionDays with
    | none => exact ⟨rfl, rfl⟩
    | some inp => exact SameSession.trans (updatePreview_session _) ⟨rfl, rfl⟩

theorem updateTodoItemOnPage_session (host : DateHost) (nowA nowB : Int) (s : State)
    (due : String) :
    SameSession (updateTodoItemOnPage host nowA nowB s due).state s := by
  unfold updateTodoItemOnPage
  split
  · exact ⟨rfl, rfl⟩
  · exact ⟨rfl, rfl⟩
  · simp only
    split <;> exact ⟨rfl, rfl⟩

theorem onSubmitResponse_session (host : DateHost) (nowA nowB : Int) (s : State)
    (response : ResponseBody) :
    SameSession (onSubmitResponse host nowA nowB s response).1 s := by
  unfold onSubmitResponse
  split
  · split
    · exact ⟨rfl, rfl⟩
    · simp only
      have hu := updateTodoItemOnPage_session host nowA nowB
        { s with extendModal := some ⟨some false⟩ } response.newDueDate.text
      split
      · exact SameSession.trans hu ⟨rfl, rfl⟩
      · exact SameSession.trans ⟨rfl, rfl⟩ (SameSession.trans hu ⟨rfl, rfl⟩)
  · exact showError_session _ _

theorem submitSettled_session (host : DateHost) (nowA nowB : Int) (s : State)
    (pending : PendingSubmit) (outcome : FetchOutcome) :
    SameSession (submitSettled host nowA nowB s pending outcome) s := by
  unfold submitSettled
  simp only
  have hThen : SameSession
      (match readResponse outcome with
        | Except.error r => (s, some r)
        | Except.ok response => onSubmitResponse host nowA nowB s response).1 s := by
    split
    · exact ⟨rfl, rfl⟩
    · exact onSubmitResponse_session _ _ _ _ _
  refine SameSession.trans ⟨rfl, rfl⟩ ?_
  split
  · exact hThen
  · exact SameSession.trans (showError_session _ _) hThen

theorem onPreviewData_session (host : DateHost) (s : State) (data : ResponseBody) :
    SameSession (onPreviewData host s data).1 s := by
  unfold onPreviewData
  cases s.newDueDate with
  | none => exact ⟨rfl, rfl⟩
  | some t =>
    simp only
    cases s.datePreviewHelp with
    | none => exact ⟨rfl, rfl⟩
    | some h => exact SameSession.trans (clearError_session _) ⟨rfl, rfl⟩

theorem onPreviewError_session (s : State) (r : Rejection) :
    SameSession (onPreviewError s r) s := by
  unfold onPreviewError
  simp only
  have hs := showError_session s (orElse r.error msgPreviewFailed)
  split
  · exact hs
  · split
    · exact SameSession.trans ⟨rfl, rfl⟩ hs
    · exact SameSession.trans ⟨rfl, rfl⟩ hs

theorem previewSettled_session (host : DateHost) (s : State) (outcome : FetchOutcome) :
    SameSession (previewSettled host s outcome) s := by
  unfold previewSettled
  cases readResponse outcome with
  | error r => exact onPreviewError_session _ _
  | ok data =>
    simp only
    have hd := onPreviewData_session host s data
    cases (onPreviewData host s data).2 with
    | none => exact hd
    | some r => exact SameSession.trans (onPreviewError_session _ _) hd

theorem openExtensionModal_fields (host : DateHost) (s : State)
    (todoId title due : Option String) :
    (openExtensionModal host s todoId title due).currentTodoId = todoId ∧
    (openExtensionModal host s todoId title due).currentDueDate = due := by
  unfold openExtensionModal
  simp only
  split
  · exact (resetModal_session _)
  · exact (resetModal_session _)

theorem dispatch_session (host : DateHost) (reg : Listeners) (s : State) (e : Event)
    (h : e.isOpen = false) : SameSession (dispatch host reg s e) s := by
  cases e with
  | clickExtend a b c => simp [Event.isOpen] at h
  | clickQuickSelect i => exact onQuickSelect_session s i
  | input value =>
    simp only [dispatch]
    split
    · exact SameSession.trans (updatePreview_session _) ⟨rfl, rfl⟩
    · exact ⟨rfl, rfl⟩
  | clickConfirm =>
    simp only [dispatch]
    split
    · exact confirmExtension_session s
    · exact SameSession.refl s
  | hidden =>
    simp only [dispatch]
    split
    · exact resetModal_session s
    · exact SameSession.refl s
  | previewSettled outcome => exact previewSettled_session host s outcome
  | submitSettled pending outcome nowA nowB =>
    exact submitSettled_session host nowA nowB s pending outcome

theorem run_session (host : DateHost) (reg : Listeners) (events : List Event) :
    ∀ s : State, (∀ e ∈ events, e.isOpen = false) → SameSession (run host reg s events) s := by
  induction events with
  | nil => intro s _; exact SameSession.refl s
  | cons e rest ih =>
    intro s h
    have he : e.isOpen = false := h e (List.mem_cons_self e rest)
    have hrest : ∀ x ∈ rest, x.isOpen = false := fun x hx => h x (List.mem_cons_of_mem e hx)
    simp only [run, List.foldl_cons]
    exact SameSession.trans (ih (dispatch host reg s e) hrest) (dispatch_session host reg s e he)

/-- C7, as the code has it: the `hidden.bs.modal` handler (`resetModal`) resets
the form only.  After `openExtensionModal(id, title, dueDate)`, any further
events that open no other item, and the hidden event, `currentTodoId` and
`currentDueDate` still hold `id` and `dueDate`. -/
theorem hidden_keeps_session (host : DateHost) (reg : Listeners) (s : State)
    (todoId title due : Option String) (events : List Event)
    (hNoOpen : ∀ e ∈ events, e.isOpen = false) :
    (run host reg (openExtensionModal host s todoId title due)
        (events ++ [Event.hidden])).currentTodoId = todoId ∧
    (run host reg (openExtensionModal host s todoId title due)
        (events ++ [Event.hidden])).currentDueDate = due := by
  have hAll : ∀ e ∈ events ++ [Event.hidden], e.isOpen = false := by
    intro e he
    rcases List.mem_append.mp he with h | h
    · exact hNoOpen e h
    · simp only [List.mem_singleton] at h
      subst h
      rfl
  have hrun := run_session host reg (events ++ [Event.hidden])
    (openExtensionModal host s todoId title due) hAll
  have hopen := openExtensionModal_fields host s todoId title due
  exact ⟨hrun.1.trans hopen.1, hrun.2.trans hopen.2⟩

theorem hidden_keeps_session_witness :
    (∀ e ∈ [Event.input "5", Event.clickConfirm], e.isOpen = false) ∧
    (run utcHost (initEventListeners samplePage)
        (openExtensionModal utcHost (construct samplePage) (some "7") (some "Task A")
          (some "2025-01-10"))
        ([Event.input "5", Event.clickConfirm] ++ [Event.hidden])).currentTodoId = some "7" :=
  ⟨by intro e he; simp only [List.mem_cons, List.mem_singleton, List.not_mem_nil, or_false] at he
      rcases he with h | h <;> subst h <;> rfl,
   (hidden_keeps_session utcHost (initEventListeners samplePage) (construct samplePage)
      (some "7") (some "Task A") (some "2025-01-10") [Event.input "5", Event.clickConfirm]
      (by intro e he; simp only [List.mem_cons, List.mem_singleton, List.not_mem_nil,
            or_false] at he
          rcases he with h | h <;> subst h <;> rfl)).1⟩

/-- C7 fails as stated: after opening the modal for item 7 and handling the
hidden event, `currentTodoId` and `currentDueDate` still hold the item, while a
freshly constructed controller has `null` in both. -/
theorem hidden_does_not_clear_session :
    (run utcHost (initEventListeners samplePage)
        (openExtensionModal utcHost (construct samplePage) (some "7") (some "Task A")
          (some "2025-01-10")) [Event.hidden]).currentTodoId = some "7" ∧
    (run utcHost (initEventListeners samplePage)
        (openExtensionModal utcHost (construct samplePage) (some "7") (some "Task A")
          (some "2025-01-10")) [Event.hidden]).currentDueDate = some "2025-01-10" ∧
    (construct samplePage).currentTodoId = none ∧
    (construct samplePage).currentDueDate = none := by
  decide

/-! ## Date formatting (C8) -/

/-- C8: `formatDate` never throws (it is a total function), but for an input
that does not parse as a date once `T00:00:00` is appended it returns the text
`Invalid Date`, not the input: neither `new Date(...)` nor `toLocaleDateString`
throws on an invalid date, so the `catch` that would return the raw input is
never entered. -/
theorem formatDate_unparsable (host : DateHost) (dateString : String)
    (h : host.parse (dateString ++ "T00:00:00") = none) :
    formatDate host dateString = "Invalid Date" := by
  simp [formatDate, h, dateToLocaleDateString]

theorem formatDate_unparsable_witness :
    utcHost.parse ("abc" ++ "T00:00:00") = none ∧
    formatDate utcHost "abc" = "Invalid Date" ∧ formatDate utcHost "abc" ≠ "abc" :=
  ⟨by decide, formatDate_unparsable utcHost "abc" (by decide),
   by rw [formatDate_unparsable utcHost "abc" (by decide)]; decide⟩

/-! ## Patching the card (C5, C6) -/

theorem findCard_ok (cards : List Card) (todoId : Option String) (card : Card)
    (h : findCard cards todoId = Except.ok (some card)) :
    selectorPlain (nullableToString todoId) = true ∧
    cards.find? (fun c => c.todoId == nullableToString todoId) = some card := by
  unfold findCard at h
  by_cases hp : selectorPlain (nullableToString todoId) = true
  · simp only [hp, if_true] at h
    injection h with h
    exact ⟨hp, h⟩
  · simp only [hp] at h
    cases h

theorem findCard_storeCard (cards : List Card) (todoId : Option String) (card new : Card)
    (hFind : findCard cards todoId = Except.ok (some card)) (hId : new.todoId = card.todoId) :
    findCard (storeCard todoId new cards) todoId = Except.ok (some new) := by
  obtain ⟨hp, hf⟩ := findCard_ok cards todoId card hFind
  have hkey : (card.todoId == nullableToString todoId) = true :=
    List.find?_some (p := fun c : Card => c.todoId == nullableToString todoId) hf
  have hnew : (new.todoId == nullableToString todoId) = true := by rw [hId]; exact hkey
  unfold findCard
  simp only [hp, if_true]
  congr 1
  clear hFind
  induction cards with
  | nil => simp at hf
  | cons c rest ih =>
    by_cases hc : (c.todoId == nullableToString todoId) = true
    · simp only [storeCard, hc, if_true, List.find?_cons, hnew]
    · have hc' : (c.todoId == nullableToString todoId) = false := by
        simpa using hc
      simp only [List.find?_cons, hc'] at hf
      simp only [storeCard, hc', Bool.false_eq_true, if_false, List.find?_cons]
      exact ih hf

theorem updateWarningBadges_frame (host : DateHost) (now : Int) (card : Card) (due : String) :
    (updateWarningBadges host now card due).1.todoId = card.todoId ∧
    (updateWarningBadges host now card due).1.dueDateDisplay = card.dueDateDisplay ∧
    (updateWarningBadges host now card due).1.extendBtn = card.extendBtn := by
  unfold updateWarningBadges
  simp only
  split
  · split <;> exact ⟨rfl, rfl, rfl⟩
  · split
    · split <;> exact ⟨rfl, rfl, rfl⟩
    · exact ⟨rfl, rfl, rfl⟩

theorem patchDueDate_todoId (host : DateHost) (now : Int) (card : Card) (due : String) :
    (patchDueDate host now card due).todoId = card.todoId := by
  unfold patchDueDate
  simp only
  split <;> rfl

/-- The card that `updateTodoItemOnPage` leaves in place of the one it found. -/
theorem updateTodoItemOnPage_card (host : DateHost) (nowA nowB : Int) (s : State)
    (due : String) (card : Card)
    (hCard : findCard s.cards s.currentTodoId = Except.ok (some card)) :
    ∃ card', findCard (updateTodoItemOnPage host nowA nowB s due).state.cards s.currentTodoId
        = Except.ok (some card') ∧
      card'.dueDateDisplay = (patchDueDate host nowA card due).dueDateDisplay ∧
      card'.extendBtn = (patchDueDate host nowA card due).extendBtn := by
  have hf := updateWarningBadges_frame host nowB (patchDueDate host nowA card due) due
  have hid := patchDueDate_todoId host nowA card due
  unfold updateTodoItemOnPage
  simp only [hCard]
  split
  · refine ⟨_, findCard_storeCard s.cards s.currentTodoId card _ hCard ?_, hf.2.1, hf.2.2⟩
    exact hf.1.trans hid
  · refine ⟨_, findCard_storeCard s.cards s.currentTodoId card _ hCard ?_, ?_, ?_⟩
    · exact hf.1.trans hid
    · exact hf.2.1
    · exact hf.2.2

/-- C5: when the page has the card of the current item and the card has an
extend control, `updateTodoItemOnPage` leaves that card with its date display
(when it has one) set to `formatDate(D)`, the control's `data-current-due-date`
set to exactly `D`, the control hidden (`display: none`) when `D` at local
midnight is strictly later than today's midnight plus three days (259200000
milliseconds), and the control's `display` unchanged when it is not later. -/
theorem updateTodoItemOnPage_patches_card (host : DateHost) (nowA nowB : Int) (s : State)
    (D : String) (card : Card) (btn : ExtendBtnEl)
    (hCard : findCard s.cards s.currentTodoId = Except.ok (some card))
    (hBtn : card.extendBtn = some btn) :
    ∃ card' btn',
      findCard (updateTodoItemOnPage host nowA nowB s D).state.cards s.currentTodoId
        = Except.ok (some card') ∧
      card'.dueDateDisplay = card.dueDateDisplay.map (fun _ => formatDate host D) ∧
      card'.extendBtn = some btn' ∧
      btn'.dataCurrentDueDate = some D ∧
      (∀ t : Int, host.parse (D ++ "T00:00:00") = some t →
        (host.startOfDay nowA + 259200000 < t → btn'.display = "none") ∧
        (t ≤ host.startOfDay nowA + 259200000 → btn'.display = btn.display)) := by
  have h3 : threeDaysMs = 259200000 := by decide
  obtain ⟨card', hFind, hDisp, hExt⟩ :=
    updateTodoItemOnPage_card host nowA nowB s D card hCard
  have hp1 : (patchDueDate host nowA card D).dueDateDisplay =
      card.dueDateDisplay.map (fun _ => formatDate host D) := by
    unfold patchDueDate
    simp [hBtn]
  by_cases hLate : dateLt (some (host.startOfDay nowA + threeDaysMs))
      (host.parse (D ++ "T00:00:00")) = true
  · have hp2 : (patchDueDate host nowA card D).extendBtn = some ⟨some D, "none"⟩ := by
      unfold patchDueDate
      simp [hBtn, hLate]
    refine ⟨card', ⟨some D, "none"⟩, hFind, hDisp.trans hp1, hExt.trans hp2, rfl, ?_⟩
    intro t ht
    refine ⟨fun _ => rfl, fun hle => ?_⟩
    rw [ht, h3] at hLate
    simp only [dateLt, decide_eq_true_eq] at hLate
    omega
  · have hp2 : (patchDueDate host nowA card D).extendBtn = some ⟨some D, btn.display⟩ := by
      unfold patchDueDate
      simp [hBtn, hLate]
    refine ⟨card', ⟨some D, btn.display⟩, hFind, hDisp.trans hp1, hExt.trans hp2, rfl, ?_⟩
    intro t ht
    refine ⟨fun hlt => ?_, fun _ => rfl⟩
    rw [ht, h3] at hLate
    simp only [dateLt, decide_eq_true_eq] at hLate
    omega

theorem updateTodoItemOnPage_patches_card_witness :
    findCard (openPage "5").cards (openPage "5").currentTodoId = Except.ok (some sampleCard) ∧
    sampleCard.extendBtn = some ⟨some "2025-01-10", ""⟩ ∧
    utcHost.startOfDay sampleNow + 259200000 = 1736726400000 ∧
    utcHost.parse ("2025-01-15" ++ "T00:00:00") = some 1736899200000 ∧
    utcHost.parse ("2025-01-14" ++ "T00:00:00") = some 1736812800000 ∧
    utcHost.parse ("2025-01-13" ++ "T00:00:00") = some 1736726400000 ∧
    (∃ card' btn',
      findCard (updateTodoItemOnPage utcHost sampleNow sampleNow (openPage "5")
        "2025-01-15").state.cards (openPage "5").currentTodoId = Except.ok (some card') ∧
      card'.dueDateDisplay = some "2025/01/15" ∧
      card'.extendBtn = some btn' ∧
      btn'.dataCurrentDueDate = some "2025-01-15" ∧
      btn'.display = "none") ∧
    (∃ card' btn',
      findCard (updateTodoItemOnPage utcHost sampleNow sampleNow (openPage "5")
        "2025-01-14").state.cards (openPage "5").currentTodoId = Except.ok (some card') ∧
      card'.extendBtn = some btn' ∧ btn'.display = "none") ∧
    (∃ card' btn',
      findCard (updateTodoItemOnPage utcHost sampleNow sampleNow (openPage "5")
        "2025-01-13").state.cards (openPage "5").currentTodoId = Except.ok (some card') ∧
      card'.extendBtn = some btn' ∧ btn'.display = "") := by
  refine ⟨rfl, rfl, by decide, by decide, by decide, by decide, ?_, ?_, ?_⟩
  · obtain ⟨card', btn', h1, h2, h3, h4, h5⟩ :=
      updateTodoItemOnPage_patches_card utcHost sampleNow sampleNow (openPage "5") "2025-01-15"
        sampleCard ⟨some "2025-01-10", ""⟩ rfl rfl
    refine ⟨card', btn', h1, ?_, h3, h4, (h5 1736899200000 (by decide)).1 (by decide)⟩
    rw [h2]
    decide
  · obtain ⟨card', btn', h1, _, h3, _, h5⟩ :=
      updateTodoItemOnPage_patches_card utcHost sampleNow sampleNow (openPage "5") "2025-01-14"
        sampleCard ⟨some "2025-01-10", ""⟩ rfl rfl
    exact ⟨card', btn', h1, h3, (h5 1736812800000 (by decide)).1 (by decide)⟩
  · obtain ⟨card', btn', h1, _, h3, _, h5⟩ :=
      updateTodoItemOnPage_patches_card utcHost sampleNow sampleNow (openPage "5") "2025-01-13"
        sampleCard ⟨some "2025-01-10", ""⟩ rfl rfl
    exact ⟨card', btn', h1, h3, (h5 1736726400000 (by decide)).2 (by decide)⟩

theorem includes_false_of_not_status (text : String) (h : isStatusBadge text = false) :
    includes text overdueMark = false ∧ includes text dueTodayMark = false := by
  unfold isStatusBadge at h
  simpa using h

theorem count_kept_blocks (blocks : List BadgeBlock) (mark : String)
    (hMark : ∀ text, isStatusBadge text = false → includes text mark = false) :
    ((blocks.filter fun b => !b.hasStatusBadge).map
      fun b => (b.badges.filter fun text => includes text mark).length).sum = 0 := by
  induction blocks with
  | nil => rfl
  | cons b rest ih =>
    by_cases hb : b.hasStatusBadge = true
    · simp only [List.filter_cons, hb, Bool.not_true, Bool.false_eq_true, if_false]
      exact ih
    · have hb' : b.hasStatusBadge = false := by simpa using hb
      simp only [List.filter_cons, hb', Bool.not_false, if_true, List.map_cons, List.sum_cons]
      rw [ih]
      have hnone : (b.badges.filter fun text => includes text mark) = [] := by
        rw [List.filter_eq_nil_iff]
        intro text ht
        have hs : isStatusBadge text = false := by
          unfold BadgeBlock.hasStatusBadge at hb'
          rw [List.any_eq_false] at hb'
          simpa using hb' text ht
        simp [hMark text hs]
      simp [hnone]

theorem countBadges_kept_append (card : Card) (mark : String) (added : List BadgeBlock)
    (hMark : ∀ text, isStatusBadge text = false → includes text mark = false) :
    Card.countBadges
      { card with blocks := (card.blocks.filter fun b => !b.hasStatusBadge) ++ added } mark =
    (added.map fun b => (b.badges.filter fun text => includes text mark).length).sum := by
  unfold Card.countBadges
  simp only [List.map_append, List.sum_append]
  rw [count_kept_blocks card.blocks mark hMark]
  simp

/-- Whatever the card and the date, `updateWarningBadges` keeps exactly the
blocks that held no status badge and appends at most one block, an overdue badge
or a due-today badge; on a card without the time-info row it appends nothing. -/
theorem updateWarningBadges_blocks (host : DateHost) (now : Int) (card : Card) (D : String) :
    ∃ added : List BadgeBlock,
      (updateWarningBadges host now card D).1.blocks =
        (card.blocks.filter fun b => !b.hasStatusBadge) ++ added ∧
      (added = [] ∨ added = [⟨[overdueBadgeText]⟩] ∨ added = [⟨[dueTodayBadgeText]⟩]) ∧
      (card.timeInfoDiv = false → added = []) := by
  unfold updateWarningBadges
  simp only
  split
  · split
    · rename_i hrow
      exact ⟨[_], rfl, Or.inr (Or.inl rfl), fun h => by simp [h] at hrow⟩
    · exact ⟨[], by simp, Or.inl rfl, fun _ => rfl⟩
  · split
    · split
      · rename_i hrow
        exact ⟨[_], rfl, Or.inr (Or.inr rfl), fun h => by simp [h] at hrow⟩
      · exact ⟨[], by simp, Or.inl rfl, fun _ => rfl⟩
    · exact ⟨[], by simp, Or.inl rfl, fun _ => rfl⟩

/-- Whatever the card and the date, after `updateWarningBadges` the card shows
at most one status badge: no status badge from before the call is left and the
two kinds are never shown together. -/
theorem updateWarningBadges_never_both (host : DateHost) (now : Int) (card : Card)
    (D : String) :
    (updateWarningBadges host now card D).1.countBadges overdueMark +
      (updateWarningBadges host now card D).1.countBadges dueTodayMark ≤ 1 := by
  have hO := fun text h => (includes_false_of_not_status text h).1
  have hT := fun text h => (includes_false_of_not_status text h).2
  have hOO : includes overdueBadgeText overdueMark = true := by decide
  have hOT : includes overdueBadgeText dueTodayMark = false := by decide
  have hTO : includes dueTodayBadgeText overdueMark = false := by decide
  have hTT : includes dueTodayBadgeText dueTodayMark = true := by decide
  obtain ⟨added, hb, hadd, _⟩ := updateWarningBadges_blocks host now card D
  have hcount : ∀ mark, (∀ text, isStatusBadge text = false → includes text mark = false) →
      (updateWarningBadges host now card D).1.countBadges mark =
        (added.map fun b => (b.badges.filter fun text => includes text mark).length).sum := by
    intro mark hMark
    unfold Card.countBadges
    rw [hb]
    simp only [List.map_append, List.sum_append]
    rw [count_kept_blocks card.blocks mark hMark]
    simp
  rw [hcount overdueMark hO, hcount dueTodayMark hT]
  rcases hadd with h | h | h <;> subst h <;> simp [hOO, hOT, hTO, hTT]

/-- On a card that has the time-info row, for a due date `D` that parses, on a
host whose local calendar day never goes back as time advances,
`updateWarningBadges` completes, drops every block that held a status badge,
and appends exactly one overdue badge when the day of `D` is before today,
exactly one due-today badge when it is today, and nothing when it is after
today. -/
theorem updateWarningBadges_redraws (host : DateHost) (now : Int) (card : Card) (D : String)
    (t : Int) (hRow : card.timeInfoDiv = true)
    (hDate : host.parse (D ++ "T00:00:00") = some t)
    (hMono : ∀ a b : Int, a ≤ b → host.localDay a ≤ host.localDay b) :
    (updateWarningBadges host now card D).2 = none ∧
    (host.localDay t < host.localDay now →
      (updateWarningBadges host now card D).1.blocks =
        (card.blocks.filter fun b => !b.hasStatusBadge) ++ [⟨[overdueBadgeText]⟩] ∧
      (updateWarningBadges host now card D).1.countBadges overdueMark = 1 ∧
      (updateWarningBadges host now card D).1.countBadges dueTodayMark = 0) ∧
    (host.localDay t = host.localDay now →
      (updateWarningBadges host now card D).1.blocks =
        (card.blocks.filter fun b => !b.hasStatusBadge) ++ [⟨[dueTodayBadgeText]⟩] ∧
      (updateWarningBadges host now card D).1.countBadges overdueMark = 0 ∧
      (updateWarningBadges host now card D).1.countBadges dueTodayMark = 1) ∧
    (host.localDay now < host.localDay t →
      (updateWarningBadges host now card D).1.blocks =
        (card.blocks.filter fun b => !b.hasStatusBadge) ∧
      (updateWarningBadges host now card D).1.countBadges overdueMark = 0 ∧
      (updateWarningBadges host now card D).1.countBadges dueTodayMark = 0) := by
  have hO := fun text h => (includes_false_of_not_status text h).1
  have hT := fun text h => (includes_false_of_not_status text h).2
  have hOO : includes overdueBadgeText overdueMark = true := by decide
  have hOT : includes overdueBadgeText dueTodayMark = false := by decide
  have hTO : includes dueTodayBadgeText overdueMark = false := by decide
  have hTT : includes dueTodayBadgeText dueTodayMark = true := by decide
  rcases lt_trichotomy (host.localDay t) (host.localDay now) with hlt | heq | hgt
  · have htlt : t < now := by
      by_contra hge
      have := hMono now t (by omega)
      omega
    have hne : host.localDay now ≠ host.localDay t := by omega
    have hEq : updateWarningBadges host now card D =
        ({ card with blocks :=
            (card.blocks.filter fun b => !b.hasStatusBadge) ++ [⟨[overdueBadgeText]⟩] }, none) := by
      unfold updateWarningBadges
      simp [hDate, dateToDateString, dateLt, htlt, hne, hRow]
    rw [hEq]
    refine ⟨rfl, fun _ => ⟨rfl, ?_, ?_⟩, fun h => absurd h (by omega), fun h => absurd h (by omega)⟩
    · rw [countBadges_kept_append card overdueMark _ hO]
      simp [hOO]
    · rw [countBadges_kept_append card dueTodayMark _ hT]
      simp [hOT]
  · have hEq : updateWarningBadges host now card D =
        ({ card with blocks :=
            (card.blocks.filter fun b => !b.hasStatusBadge) ++ [⟨[dueTodayBadgeText]⟩] }, none) := by
      unfold updateWarningBadges
      simp [hDate, dateToDateString, dateLt, heq, hRow]
    rw [hEq]
    refine ⟨rfl, fun h => absurd h (by omega), fun _ => ⟨rfl, ?_, ?_⟩, fun h => absurd h (by omega)⟩
    · rw [countBadges_kept_append card overdueMark _ hO]
      simp [hTO]
    · rw [countBadges_kept_append card dueTodayMark _ hT]
      simp [hTT]
  · have htge : ¬ t < now := by
      intro hlt
      have := hMono t now (by omega)
      omega
    have hne : host.localDay now ≠ host.localDay t := by omega
    have hEq : updateWarningBadges host now card D =
        ({ card with blocks := card.blocks.filter fun b => !b.hasStatusBadge }, none) := by
      unfold updateWarningBadges
      simp [hDate, dateToDateString, dateLt, htge, hne]
    rw [hEq]
    refine ⟨rfl, fun h => absurd h (by omega), fun h => absurd h (by omega), fun _ => ⟨rfl, ?_, ?_⟩⟩
    · have := countBadges_kept_append card overdueMark [] hO
      simpa using this
    · have := countBadges_kept_append card dueTodayMark [] hT
      simpa using this

/-- On every card, with or without the time-info row: for a due date `D` whose
day is after today, `updateWarningBadges` completes and the card is left with
the blocks that held no status badge, nothing added. -/
theorem updateWarningBadges_after_today (host : DateHost) (now : Int) (card : Card)
    (D : String) (t : Int)
    (hDate : host.parse (D ++ "T00:00:00") = some t)
    (hMono : ∀ a b : Int, a ≤ b → host.localDay a ≤ host.localDay b)
    (hAfter : host.localDay now < host.localDay t) :
    updateWarningBadges host now card D =
      ({ card with blocks := card.blocks.filter fun b => !b.hasStatusBadge }, none) := by
  have htge : ¬ t < now := by
    intro hlt
    have := hMono t now (by omega)
    omega
  have hne : host.localDay now ≠ host.localDay t := by omega
  unfold updateWarningBadges
  simp [hDate, dateToDateString, dateLt, htge, hne]

theorem utcHost_day_mono (a b : Int) (h : a ≤ b) : utcHost.localDay a ≤ utcHost.localDay b :=
  Int.ediv_le_ediv (by decide) h

theorem updateWarningBadges_redraws_witness :
    sampleCard.timeInfoDiv = true ∧
    utcHost.parse ("2025-01-08" ++ "T00:00:00") = some 1736294400000 ∧
    utcHost.localDay 1736294400000 < utcHost.localDay sampleNow ∧
    (updateWarningBadges utcHost sampleNow sampleCard "2025-01-08").1.blocks =
      [⟨["高優先級"]⟩, ⟨[overdueBadgeText]⟩] ∧
    (updateWarningBadges utcHost sampleNow sampleCard "2025-01-08").1.countBadges overdueMark = 1 ∧
    (updateWarningBadges utcHost sampleNow sampleCard "2025-01-08").1.countBadges dueTodayMark
      = 0 :=
  have h := (updateWarningBadges_redraws utcHost sampleNow sampleCard "2025-01-08"
    1736294400000 rfl (by decide) utcHost_day_mono).2.1 (by decide)
  ⟨rfl, by decide, by decide, h.1.trans (by decide), h.2.1, h.2.2⟩

/-- C6 at a card without the `.d-flex.flex-wrap.gap-3` row and a due date that
is today: `updateWarningBadges` removes the old status badge and then throws at
`timeInfoDiv.parentElement`, so the card carries no due-today badge.  (The
caller guards its own lookups of the date display and the extend control.) -/
theorem updateWarningBadges_without_row :
    utcHost.parse ("2025-01-10" ++ "T00:00:00") = some 1736467200000 ∧
    utcHost.localDay 1736467200000 = utcHost.localDay sampleNow ∧
    cardWithoutRow.countBadges dueTodayMark = 1 ∧
    (updateWarningBadges utcHost sampleNow cardWithoutRow "2025-01-10").2 =
      some (nullDeref "timeInfoDiv") ∧
    (updateWarningBadges utcHost sampleNow cardWithoutRow "2025-01-10").1.countBadges
      dueTodayMark = 0 ∧
    (updateWarningBadges utcHost sampleNow sampleCard "2025-01-10").1.countBadges
      dueTodayMark = 1 := by
  decide

/-! ## The reply to a submit (C4) -/

theorem showError_then_restore_shows (s : State) (m : String) (btn : Option ButtonEl) :
    ShowsError s { showError s m with confirmExtend := btn } m := by
  unfold ShowsError showError
  cases h1 : s.errorMessage <;> cases h2 : s.errorText <;> simp [h1, h2]

theorem showError_then_restore_frame (s : State) (m : String) (btn : Option ButtonEl) :
    ({ showError s m with confirmExtend := btn } : State).extendModal = s.extendModal ∧
    ({ showError s m with confirmExtend := btn } : State).cards = s.cards ∧
    ({ showError s m with confirmExtend := btn } : State).banners = s.banners := by
  unfold showError
  split <;> exact ⟨rfl, rfl, rfl⟩

theorem showError_frame (s : State) (m : String) :
    (showError s m).extendModal = s.extendModal ∧ (showError s m).cards = s.cards ∧
    (showError s m).banners = s.banners ∧ (showError s m).confirmExtend = s.confirmExtend := by
  unfold showError
  split <;> exact ⟨rfl, rfl, rfl, rfl⟩

theorem updateTodoItemOnPage_frame (host : DateHost) (nowA nowB : Int) (s : State)
    (due : String) :
    (updateTodoItemOnPage host nowA nowB s due).state.extendModal = s.extendModal := by
  unfold updateTodoItemOnPage
  split
  · rfl
  · rfl
  · simp only
    split <;> rfl

theorem submitSettled_success (host : DateHost) (nowA nowB : Int) (s : State)
    (pending : PendingSubmit) (body : ResponseBody)
    (hModal : s.extendModal = some ⟨some true⟩) (hSuccess : body.success = true) :
    (submitSettled host nowA nowB s pending
      (FetchOutcome.response true (JsonResult.parsed body))).extendModal = some ⟨some false⟩ := by
  have hu := updateTodoItemOnPage_frame host nowA nowB
    { s with extendModal := some ⟨some false⟩ } body.newDueDate.text
  unfold submitSettled
  simp only [readResponse, onSubmitResponse, hSuccess, hModal, Option.bind, if_true,
    Bool.not_true, Bool.false_eq_true, if_false]
  cases hr : (updateTodoItemOnPage host nowA nowB
      { s with extendModal := some ⟨some false⟩ } body.newDueDate.text).result with
  | error e =>
    simp only
    rw [(showError_frame _ _).1]
    exact hu
  | ok u =>
    simp only [showSuccessMessage]
    exact hu

theorem submitSettled_failure (host : DateHost) (nowA nowB : Int) (s : State)
    (pending : PendingSubmit) (ok : Bool) (body : ResponseBody)
    (hNot : ¬ (ok = true ∧ body.success = true)) :
    submitSettled host nowA nowB s pending (FetchOutcome.response ok (JsonResult.parsed body)) =
      { showError s (orElse body.message
          (if ok = true then msgExtendFailed else msgExtendFailedRetry)) with
        confirmExtend :=
          (showError s (orElse body.message
            (if ok = true then msgExtendFailed else msgExtendFailedRetry))).confirmExtend.map
              fun _ => ⟨false, pending.originalText⟩ } := by
  unfold submitSettled
  cases ok with
  | false => simp [readResponse, Rejection.message]
  | true =>
    have hs : body.success = false := by simpa using hNot
    simp [readResponse, onSubmitResponse, hs]

theorem submitSettled_malformed (host : DateHost) (nowA nowB : Int) (s : State)
    (pending : PendingSubmit) (ok : Bool) (e : Thrown) :
    submitSettled host nowA nowB s pending (FetchOutcome.response ok (JsonResult.malformed e)) =
      { showError s (orElse (JsonField.ofString e.message) msgExtendFailedRetry) with
        confirmExtend :=
          (showError s (orElse (JsonField.ofString e.message)
            msgExtendFailedRetry)).confirmExtend.map
            fun _ => ⟨false, pending.originalText⟩ } := by
  unfold submitSettled
  simp [readResponse, Rejection.message]

/-- C4, as the code has it.  With the modal open: for a reply whose body is a
JSON object, the chain closes the modal exactly when the reply is 2xx and its
`success` is truthy; for every other such reply the modal, the cards and the
banners are unchanged and the error shown is the string form of the reply's
`message` when that value is truthy, and the generic text when it is missing or
falsy (`延期失敗` for a 2xx reply, `延期失敗，請稍後再試` for a non-2xx one).
For a reply whose body is not JSON nothing is closed or patched either, and the
error shown is the message of the parser's exception (the non-2xx generic text
if that message is empty). -/
theorem submitSettled_reply (host : DateHost) (nowA nowB : Int) (s : State)
    (pending : PendingSubmit) (ok : Bool)
    (hModal : s.extendModal = some ⟨some true⟩) :
    (∀ body : ResponseBody,
      ((submitSettled host nowA nowB s pending
          (FetchOutcome.response ok (JsonResult.parsed body))).extendModal = some ⟨some false⟩ ↔
        (ok = true ∧ body.success = true)) ∧
      (¬ (ok = true ∧ body.success = true) →
        (submitSettled host nowA nowB s pending
          (FetchOutcome.response ok (JsonResult.parsed body))).extendModal = s.extendModal ∧
        (submitSettled host nowA nowB s pending
          (FetchOutcome.response ok (JsonResult.parsed body))).cards = s.cards ∧
        (submitSettled host nowA nowB s pending
          (FetchOutcome.response ok (JsonResult.parsed body))).banners = s.banners ∧
        (body.message.truthy = true →
          ShowsError s (submitSettled host nowA nowB s pending
            (FetchOutcome.response ok (JsonResult.parsed body))) body.message.text) ∧
        (body.message.truthy = false →
          ShowsError s (submitSettled host nowA nowB s pending
            (FetchOutcome.response ok (JsonResult.parsed body)))
            (if ok = true then msgExtendFailed else msgExtendFailedRetry)))) ∧
    (∀ e : Thrown,
      (submitSettled host nowA nowB s pending
        (FetchOutcome.response ok (JsonResult.malformed e))).extendModal = s.extendModal ∧
      (submitSettled host nowA nowB s pending
        (FetchOutcome.response ok (JsonResult.malformed e))).cards = s.cards ∧
      (submitSettled host nowA nowB s pending
        (FetchOutcome.response ok (JsonResult.malformed e))).banners = s.banners ∧
      (e.message ≠ "" →
        ShowsError s (submitSettled host nowA nowB s pending
          (FetchOutcome.response ok (JsonResult.malformed e))) e.message) ∧
      (e.message = "" →
        ShowsError s (submitSettled host nowA nowB s pending
          (FetchOutcome.response ok (JsonResult.malformed e))) msgExtendFailedRetry)) := by
  refine ⟨fun body => ?_, fun e => ?_⟩
  · have hFail : ¬ (ok = true ∧ body.success = true) →
        (submitSettled host nowA nowB s pending
          (FetchOutcome.response ok (JsonResult.parsed body))).extendModal = s.extendModal ∧
        (submitSettled host nowA nowB s pending
          (FetchOutcome.response ok (JsonResult.parsed body))).cards = s.cards ∧
        (submitSettled host nowA nowB s pending
          (FetchOutcome.response ok (JsonResult.parsed body))).banners = s.banners ∧
        (body.message.truthy = true →
          ShowsError s (submitSettled host nowA nowB s pending
            (FetchOutcome.response ok (JsonResult.parsed body))) body.message.text) ∧
        (body.message.truthy = false →
          ShowsError s (submitSettled host nowA nowB s pending
            (FetchOutcome.response ok (JsonResult.parsed body)))
            (if ok = true then msgExtendFailed else msgExtendFailedRetry)) := by
      intro hNot
      rw [submitSettled_failure host nowA nowB s pending ok body hNot]
      have hf := showError_then_restore_frame s
      have hshow := showError_then_restore_shows s (orElse body.message
          (if ok = true then msgExtendFailed else msgExtendFailedRetry))
      refine ⟨(hf _ _).1, (hf _ _).2.1, (hf _ _).2.2, ?_, ?_⟩
      · intro hm
        simp only [orElse, hm, if_true] at hshow ⊢
        exact hshow _
      · intro hm
        simp only [orElse, hm, Bool.false_eq_true, if_false] at hshow ⊢
        exact hshow _
    refine ⟨⟨fun hClosed => ?_, fun hYes => ?_⟩, hFail⟩
    · by_contra hNot
      have := (hFail hNot).1
      rw [hClosed, hModal] at this
      simp at this
    · obtain ⟨hok, hs⟩ := hYes
      subst hok
      exact submitSettled_success host nowA nowB s pending body hModal hs
  · rw [submitSettled_malformed host nowA nowB s pending ok e]
    have hf := showError_then_restore_frame s
    have hshow := showError_then_restore_shows s
      (orElse (JsonField.ofString e.message) msgExtendFailedRetry)
    refine ⟨(hf _ _).1, (hf _ _).2.1, (hf _ _).2.2, ?_, ?_⟩
    · intro he
      have ht : (JsonField.ofString e.message).truthy = true := by
        simp [JsonField.ofString, he]
      simp only [orElse, ht, if_true] at hshow ⊢
      exact hshow _
    · intro he
      have ht : (JsonField.ofString e.message).truthy = false := by
        simp [JsonField.ofString, he]
      simp only [orElse, ht, Bool.false_eq_true, if_false] at hshow ⊢
      exact hshow _

theorem submitSettled_reply_witness :
    submittedPage.extendModal = some ⟨some true⟩ ∧
    (submitSettled utcHost sampleNow sampleNow submittedPage ⟨"確認延期"⟩
      (FetchOutcome.response true
        (JsonResult.parsed ⟨true, JsonField.ofString "2025-01-15", JsonField.missing,
          JsonField.missing⟩))).extendModal = some ⟨some false⟩ ∧
    ShowsError submittedPage
      (submitSettled utcHost sampleNow sampleNow submittedPage ⟨"確認延期"⟩
        (FetchOutcome.response false
          (JsonResult.parsed ⟨false, JsonField.missing, JsonField.ofString "找不到待辦事項",
            JsonField.missing⟩)))
      "找不到待辦事項" ∧
    ShowsError submittedPage
      (submitSettled utcHost sampleNow sampleNow submittedPage ⟨"確認延期"⟩
        (FetchOutcome.response true
          (JsonResult.parsed ⟨false, JsonField.missing, ⟨true, "42"⟩, JsonField.missing⟩)))
      "42" ∧
    ShowsError submittedPage
      (submitSettled utcHost sampleNow sampleNow submittedPage ⟨"確認延期"⟩
        (FetchOutcome.response true
          (JsonResult.parsed ⟨false, JsonField.missing, JsonField.missing,
            JsonField.missing⟩)))
      msgExtendFailed :=
  have h := submitSettled_reply utcHost sampleNow sampleNow submittedPage ⟨"確認延期"⟩
  ⟨by decide,
   ((h true (by decide)).1 ⟨true, JsonField.ofString "2025-01-15", JsonField.missing,
      JsonField.missing⟩).1.mpr ⟨rfl, rfl⟩,
   ((h false (by decide)).1 ⟨false, JsonField.missing, JsonField.ofString "找不到待辦事項",
      JsonField.missing⟩).2 (by decide) |>.2.2.2.1 (by decide),
   ((h true (by decide)).1 ⟨false, JsonField.missing, ⟨true, "42"⟩, JsonField.missing⟩).2
      (by decide) |>.2.2.2.1 rfl,
   ((h true (by decide)).1 ⟨false, JsonField.missing, JsonField.missing,
      JsonField.missing⟩).2 (by decide) |>.2.2.2.2 rfl⟩

/-- C4 fails as stated at two replies.  A non-2xx reply whose body is not JSON
carries no `message`, yet the error box shows neither generic text but the
message of the `SyntaxError` with which `response.json()` rejects.  A 2xx reply
`{"success": false, "message": ""}` has a `message`, yet the error box shows
the generic text, because the empty string is falsy. -/
theorem submitSettled_non_json_reply :
    ((submitSettled utcHost sampleNow sampleNow submittedPage ⟨"確認延期"⟩
      (FetchOutcome.response false
        (JsonResult.malformed ⟨"SyntaxError", "Unexpected token < in JSON at position 0"⟩))
      ).errorText = some "Unexpected token < in JSON at position 0" ∧
     "Unexpected token < in JSON at position 0" ≠ msgExtendFailedRetry ∧
     "Unexpected token < in JSON at position 0" ≠ msgExtendFailed) ∧
    ((submitSettled utcHost sampleNow sampleNow submittedPage ⟨"確認延期"⟩
      (FetchOutcome.response true
        (JsonResult.parsed ⟨false, JsonField.missing, JsonField.ofString "",
          JsonField.missing⟩))).errorText = some msgExtendFailed ∧
     msgExtendFailed ≠ "") := by
  decide

end TodoExtension
